import Mathlib

/-!
Verification development for the Agetic_ATS adaptive trading decision engine.

The definitions below form a shallow embedding of the Python sources:
  * `atl/tools/features.py`  — indicator computations (EMA, ATR, RVOL, Donchian),
  * `atl/tools/risk.py`      — risk parameters, position sizing, trade assessment,
  * `atl/tools/execution.py` — execution planning,
  * `atl/agents/governance_agent.py`, `signal_agent_a.py`, `signal_agent_b.py`,
    `risk_agent.py`, `exec_agent.py` — agents with deterministic fallbacks,
  * `atl/graphs/common.py`, `intraday_graph.py`, `swing_graph.py` — the cycle
    state machine.

Python floats are modelled by `EF`, an extended value carrying either an exact
rational or one of the IEEE non-finite values (NaN, +inf, -inf); exact code paths
that only ever see finite numbers are modelled directly over `ℚ`.  Fallible code
(raising Python exceptions) returns `Except String`.  Python dictionaries are
modelled by records whose fields are the keys the code reads; a key that is
absent (or bound to `None`) is `Option.none`.
-/

namespace Atl

/-- Model of a Python/pandas float value: a finite rational or a non-finite
IEEE value.  `features.py` works on pandas series of such values. -/
inductive EF where
  | fin (q : ℚ)
  | nan
  | pinf
  | ninf
deriving DecidableEq, Repr

/-- Is the value finite (neither NaN nor an infinity)? -/
def EF.isFin : EF → Bool
  | .fin _ => true
  | _ => false

/-- IEEE-style addition on the float model. -/
def EF.add : EF → EF → EF
  | .fin a, .fin b => .fin (a + b)
  | .nan, _ => .nan
  | _, .nan => .nan
  | .pinf, .ninf => .nan
  | .ninf, .pinf => .nan
  | .pinf, _ => .pinf
  | _, .pinf => .pinf
  | .ninf, _ => .ninf
  | _, .ninf => .ninf

/-- IEEE-style negation on the float model. -/
def EF.neg : EF → EF
  | .fin a => .fin (-a)
  | .nan => .nan
  | .pinf => .ninf
  | .ninf => .pinf

/-- IEEE-style subtraction on the float model. -/
def EF.sub (a b : EF) : EF := EF.add a (EF.neg b)

/-- IEEE-style multiplication on the float model. -/
def EF.mul : EF → EF → EF
  | .fin a, .fin b => .fin (a * b)
  | .nan, _ => .nan
  | _, .nan => .nan
  | .pinf, .pinf => .pinf
  | .pinf, .ninf => .ninf
  | .ninf, .pinf => .ninf
  | .ninf, .ninf => .pinf
  | .pinf, .fin b => if b = 0 then .nan else if 0 < b then .pinf else .ninf
  | .fin a, .pinf => if a = 0 then .nan else if 0 < a then .pinf else .ninf
  | .ninf, .fin b => if b = 0 then .nan else if 0 < b then .ninf else .pinf
  | .fin a, .ninf => if a = 0 then .nan else if 0 < a then .ninf else .pinf

/-- IEEE-style division on the float model: division of a non-zero finite
value by zero yields a signed infinity, `0/0` yields NaN (this is the numpy
behaviour under `np.errstate(divide="ignore", invalid="ignore")` used by
`relative_volume`). -/
def EF.div : EF → EF → EF
  | .fin a, .fin b =>
      if b = 0 then (if a = 0 then .nan else if 0 < a then .pinf else .ninf)
      else .fin (a / b)
  | .nan, _ => .nan
  | _, .nan => .nan
  | .pinf, .pinf => .nan
  | .pinf, .ninf => .nan
  | .ninf, .pinf => .nan
  | .ninf, .ninf => .nan
  | .pinf, .fin b => if 0 ≤ b then .pinf else .ninf
  | .ninf, .fin b => if 0 ≤ b then .ninf else .pinf
  | .fin _, .pinf => .fin 0
  | .fin _, .ninf => .fin 0

/-- Absolute value on the float model. -/
def EF.abs : EF → EF
  | .fin a => .fin |a|
  | .nan => .nan
  | .pinf => .pinf
  | .ninf => .pinf

/-- Pandas maximum with `skipna=True` semantics: NaN operands are ignored
(`DataFrame.max(axis=1)` in `atr`, `rolling(...).max()` in Donchian). -/
def EF.pmax : EF → EF → EF
  | .nan, b => b
  | a, .nan => a
  | .pinf, _ => .pinf
  | _, .pinf => .pinf
  | .ninf, b => b
  | a, .ninf => a
  | .fin a, .fin b => .fin (max a b)

/-- Pandas minimum with `skipna=True` semantics. -/
def EF.pmin : EF → EF → EF
  | .nan, b => b
  | a, .nan => a
  | .ninf, _ => .ninf
  | _, .ninf => .ninf
  | .pinf, b => b
  | a, .pinf => a
  | .fin a, .fin b => .fin (min a b)

/-- Sum of a list of float values. -/
def sumEF (l : List EF) : EF := l.foldl EF.add (.fin 0)

/-- Mean of a list of float values (sum divided by length). -/
def meanEF (l : List EF) : EF := EF.div (sumEF l) (.fin (l.length : ℚ))

/-- The rolling window ending at index `i` with `min_periods=1` semantics:
the last `min (p, i+1)` elements of the series up to and including `i`. -/
def windowAt (p : ℕ) (xs : List EF) (i : ℕ) : List EF :=
  (xs.take (i + 1)).drop (i + 1 - p)

/-- Apply an aggregate to every rolling window (`rolling(window=p, min_periods=1)`). -/
def rollingApply (p : ℕ) (f : List EF → EF) (xs : List EF) : List EF :=
  (List.range xs.length).map (fun i => f (windowAt p xs i))

/-- `rolling(window=p, min_periods=1).mean()`. -/
def rollingMean (p : ℕ) (xs : List EF) : List EF := rollingApply p meanEF xs

/-- `rolling(window=p, min_periods=1).max()`. -/
def rollingMax (p : ℕ) (xs : List EF) : List EF :=
  rollingApply p (fun w => w.foldl EF.pmax .nan) xs

/-- `rolling(window=p, min_periods=1).min()`. -/
def rollingMin (p : ℕ) (xs : List EF) : List EF :=
  rollingApply p (fun w => w.foldl EF.pmin .nan) xs

/-- Tail of the exponentially weighted mean recurrence with `adjust=False`:
`y_i = (1-α)·y_{i-1} + α·x_i`. -/
def ewmFrom (alpha : ℚ) : EF → List EF → List EF
  | _, [] => []
  | prev, x :: xs =>
      EF.add (EF.mul (.fin (1 - alpha)) prev) (EF.mul (.fin alpha) x) ::
        ewmFrom alpha (EF.add (EF.mul (.fin (1 - alpha)) prev) (EF.mul (.fin alpha) x)) xs

/-- `features.ema`: exponential moving average via
`series.ewm(span=period, adjust=False, min_periods=1).mean()`, so
`α = 2/(period+1)` and the first output equals the first input.
Raises when `period ≤ 0`. -/
def ema (period : ℤ) (series : List EF) : Except String (List EF) :=
  if period ≤ 0 then .error "period must be a positive integer"
  else
    let alpha : ℚ := 2 / ((period : ℚ) + 1)
    match series with
    | [] => .ok []
    | x :: xs => .ok (x :: ewmFrom alpha x xs)

/-- A row of the high/low/close frame consumed by `features.atr`. -/
structure HLC where
  high : EF
  low : EF
  close : EF
deriving DecidableEq, Repr

/-- One row of the true-range computation: the pandas row-wise maximum of
`|high-low|`, `|high-prev_close|`, `|low-prev_close|` (NaN components are
skipped, so the first row reduces to `|high-low|`). -/
def trRow (prevClose : EF) (b : HLC) : EF :=
  EF.pmax (EF.pmax (EF.abs (EF.sub b.high b.low)) (EF.abs (EF.sub b.high prevClose)))
    (EF.abs (EF.sub b.low prevClose))

/-- True-range series; the shifted previous close starts as NaN. -/
def trGo : EF → List HLC → List EF
  | _, [] => []
  | prevClose, b :: rest => trRow prevClose b :: trGo b.close rest

/-- `features.atr`: rolling mean of the true range with a shrinking initial
window.  Raises when `period ≤ 0`.  (The missing-columns check of the source
is unrepresentable here: an `HLC` row always carries all three columns.) -/
def atr (period : ℤ) (bars : List HLC) : Except String (List EF) :=
  if period ≤ 0 then .error "period must be a positive integer"
  else .ok (rollingMean period.toNat (trGo .nan bars))

/-- The `replace([inf, -inf], nan).fillna(0.0)` step of `relative_volume`:
every non-finite ratio becomes `0.0`. -/
def sanitizeRvol : EF → EF
  | .fin q => .fin q
  | _ => .fin 0

/-- `features.relative_volume`: current volume over its rolling mean, with
non-finite ratios mapped to `0.0`.  Raises when `window ≤ 0`. -/
def relative_volume (window : ℤ) (volume : List EF) : Except String (List EF) :=
  if window ≤ 0 then .error "window must be a positive integer"
  else .ok ((volume.zip (rollingMean window.toNat volume)).map
    (fun p => sanitizeRvol (EF.div p.1 p.2)))

/-- A row of the high/low frame consumed by `features.donchian_channels`. -/
structure HL where
  high : EF
  low : EF
deriving DecidableEq, Repr

/-- Result of `features.donchian_channels`. -/
structure DonchianChannels where
  upper : List EF
  lower : List EF
  middle : List EF
deriving DecidableEq, Repr

/-- `features.donchian_channels`: rolling max of highs, rolling min of lows,
and their midpoint.  Raises when `period ≤ 0`. -/
def donchian_channels (period : ℤ) (bars : List HL) : Except String DonchianChannels :=
  if period ≤ 0 then .error "period must be a positive integer"
  else
    let upper := rollingMax period.toNat (bars.map (·.high))
    let lower := rollingMin period.toNat (bars.map (·.low))
    .ok ⟨upper, lower,
      (upper.zip lower).map (fun p => EF.div (EF.add p.1 p.2) (.fin 2))⟩

/-- `database.models.OrderSide`. -/
inductive OrderSide where
  | BUY
  | SELL
deriving DecidableEq, Repr

/-- `database.models.SignalAction`. -/
inductive SignalAction where
  | ENTER
  | EXIT
  | SKIP
  | MANAGE
deriving DecidableEq, Repr

/-- `database.models.Timeframe`. -/
inductive Timeframe where
  | M1
  | M5
  | M15
  | H1
  | H4
  | D1
deriving DecidableEq, Repr

/-- `database.models.MarketRegime` (only its parseability matters here). -/
inductive MarketRegime where
  | TRENDING
  | RANGING
  | VOLATILE
  | QUIET
deriving DecidableEq, Repr

/-- Python `a or b` on an optional float `a` and fallback `b`: `None` and
`0.0` are falsy. -/
def pyOrQ (a : Option ℚ) (b : Option ℚ) : Option ℚ :=
  match a with
  | some x => if x = 0 then b else some x
  | none => b

/-- Python `a or b` on an optional string `a` and default `b`: `None` and the
empty string are falsy. -/
def pyOrS (a : Option String) (b : String) : String :=
  match a with
  | some s => if s = "" then b else s
  | none => b

/-- Python truthiness of an optional string. -/
def truthyS (a : Option String) : Bool :=
  match a with
  | some s => s ≠ ""
  | none => false

/-- Python `str.strip()`: drop leading and trailing whitespace. -/
def pyStrip (s : String) : String :=
  ⟨(((s.data.dropWhile Char.isWhitespace).reverse.dropWhile Char.isWhitespace).reverse)⟩

/-- Python `str.upper()` (character-wise upper-casing). -/
def pyUpper (s : String) : String := ⟨s.data.map Char.toUpper⟩

/-- Python `str.lower()` (character-wise lower-casing). -/
def pyLower (s : String) : String := ⟨s.data.map Char.toLower⟩

/-- Python `round(q)`: round half to even (banker's rounding). -/
def roundHalfEven (q : ℚ) : ℤ :=
  if q - q.floor < 1 / 2 then q.floor
  else if 1 / 2 < q - q.floor then q.floor + 1
  else if q.floor % 2 = 0 then q.floor else q.floor + 1

/-- Python `round(q, d)`. -/
def roundTo (d : ℕ) (q : ℚ) : ℚ := (roundHalfEven (q * 10 ^ d) : ℚ) / 10 ^ d

/-- `risk.RiskParameters` (defaults from the dataclass). -/
structure RiskParameters where
  account_balance : ℚ
  risk_per_trade : ℚ := 1 / 100
  contract_size : ℚ := 1
  min_position : ℚ := 1 / 100
  max_position : Option ℚ := none
  reward_risk : ℚ := 2
  atr_multiplier : ℚ := 3 / 2
deriving DecidableEq, Repr

/-- `RiskParameters.risk_amount`: monetary risk per trade; raises on a
non-positive balance or a `risk_per_trade` outside `(0, 1]`. -/
def RiskParameters.riskAmount (p : RiskParameters) : Except String ℚ :=
  if p.account_balance ≤ 0 then .error "account_balance must be positive"
  else if ¬(0 < p.risk_per_trade ∧ p.risk_per_trade ≤ 1) then
    .error "risk_per_trade must be in (0, 1]"
  else .ok (p.account_balance * p.risk_per_trade)

/-- `risk.PositionSizingResult`. -/
structure PositionSizingResult where
  quantity : ℚ
  risk_amount : ℚ
  per_unit_risk : ℚ
deriving DecidableEq, Repr

/-- `risk.RiskAssessment`. -/
structure RiskAssessment where
  stop_loss : ℚ
  take_profit : ℚ
  position_size : ℚ
  risk_amount : ℚ
  reward_ratio : ℚ
  warnings : List String := []
deriving DecidableEq, Repr

/-- `RiskManager._direction`: `+1` for BUY, `-1` for SELL. -/
def direction (side : OrderSide) : ℚ := if side = .BUY then 1 else -1

/-- `RiskManager.suggest_stop_loss`: ATR-multiple offset (or a 1% offset when
no positive ATR value is given), clamped to be non-negative.  Raises when the
entry price is not positive. -/
def suggest_stop_loss (p : RiskParameters) (side : OrderSide) (entry_price : ℚ)
    (atr_value : Option ℚ := none) (atr_multiplier : Option ℚ := none) :
    Except String ℚ :=
  if entry_price ≤ 0 then .error "entry_price must be positive"
  else
    let multiplier := (pyOrQ atr_multiplier (some p.atr_multiplier)).getD 0
    let distance :=
      match atr_value with
      | none => entry_price * (1 / 100)
      | some a => if a ≤ 0 then entry_price * (1 / 100) else a * multiplier
    .ok (max (entry_price - direction side * distance) 0)

/-- `RiskManager.suggest_take_profit`: reward/risk multiple of the stop
distance, clamped to be non-negative.  Raises on a non-positive ratio. -/
def suggest_take_profit (p : RiskParameters) (side : OrderSide) (entry_price : ℚ)
    (stop_loss : ℚ) (reward_risk : Option ℚ := none) : Except String ℚ :=
  let ratio := (pyOrQ reward_risk (some p.reward_risk)).getD 0
  if ratio ≤ 0 then .error "reward-risk ratio must be positive"
  else .ok (max (entry_price + direction side * |entry_price - stop_loss| * ratio) 0)

/-- `RiskManager._position_size`: risk amount over per-unit risk, floored at
`min_position`, then capped at `max_position` when set, rounded to 6 decimal
places.  Raises when the stop equals the entry price (and a zero per-unit
risk, i.e. a zero contract size, is a Python `ZeroDivisionError`). -/
def position_size (p : RiskParameters) (_side : OrderSide) (entry_price : ℚ)
    (stop_loss : ℚ) : Except String PositionSizingResult := do
  let risk_amount ← p.riskAmount
  let distance := |entry_price - stop_loss|
  if distance ≤ 0 then .error "stop loss must differ from entry price"
  else
    let per_unit_risk := distance * p.contract_size
    if per_unit_risk = 0 then .error "ZeroDivisionError"
    else
      let quantity := risk_amount / per_unit_risk
      let quantity := max quantity p.min_position
      let quantity :=
        match p.max_position with
        | some m => min quantity m
        | none => quantity
      .ok ⟨roundTo 6 quantity, risk_amount, per_unit_risk⟩

/-- `RiskManager.reward_ratio`: reward distance over risk distance, `0` when
the risk distance is zero. -/
def reward_ratio (_side : OrderSide) (entry_price stop_loss take_profit : ℚ) : ℚ :=
  let risk := |entry_price - stop_loss|
  let reward := |take_profit - entry_price|
  if risk = 0 then 0 else reward / risk

/-- `RiskManager.assess_trade`: fills the stop and take-profit via the two
suggesters when absent, sizes the position, and attaches warnings. -/
def assess_trade (p : RiskParameters) (side : OrderSide) (entry_price : ℚ)
    (stop_loss : Option ℚ := none) (take_profit : Option ℚ := none)
    (atr_value : Option ℚ := none) : Except String RiskAssessment := do
  let sl_price ←
    match stop_loss with
    | some s => pure s
    | none => suggest_stop_loss p side entry_price atr_value
  let tp_price ←
    match take_profit with
    | some t => pure t
    | none => suggest_take_profit p side entry_price sl_price
  let sizing ← position_size p side entry_price sl_price
  let ratio := reward_ratio side entry_price sl_price tp_price
  let warnings :=
    (if ratio < 1 then ["Reward-to-risk ratio below 1.0"] else []) ++
      (if sizing.quantity ≤ p.min_position then ["Position size at minimum threshold"] else [])
  .ok ⟨roundTo 6 sl_price, roundTo 6 tp_price, sizing.quantity,
    roundTo 2 sizing.risk_amount, roundTo 2 ratio, warnings⟩

/-- `RiskManager.ensure_can_trade`: negative drawdown counts as profit,
otherwise the drawdown must not exceed the limit. -/
def ensure_can_trade (current_drawdown max_drawdown : ℚ) : Bool :=
  if current_drawdown < 0 then true else current_drawdown ≤ max_drawdown

/-- `RiskManager.score_portfolio_risk`: total/max absolute exposure plus the
given correlation and drawdown risks, all rounded to 4 decimals. -/
def score_portfolio_risk (exposures : List ℚ) (correlation_risk drawdown_risk : ℚ) :
    List (String × ℚ) :=
  let total := (exposures.map (fun e => |e|)).foldl (· + ·) 0
  let concentration := (exposures.map (fun e => |e|)).foldl max 0
  [("total_exposure", roundTo 4 total),
   ("concentration_risk", roundTo 4 concentration),
   ("correlation_risk", roundTo 4 correlation_risk),
   ("drawdown_risk", roundTo 4 drawdown_risk)]

/-- `database.models.MarketRegime` string parsing (`MarketRegime(value)`). -/
def parseRegime (v : Option String) : Option MarketRegime :=
  match v with
  | some s =>
      if s = "trending" then some .TRENDING
      else if s = "ranging" then some .RANGING
      else if s = "volatile" then some .VOLATILE
      else if s = "quiet" then some .QUIET
      else none
  | none => none

/-- `SignalAction(value)` with the agents' fallback-to-SKIP on `ValueError`. -/
def parseAction (v : String) : SignalAction :=
  if v = "enter" then .ENTER
  else if v = "exit" then .EXIT
  else if v = "manage" then .MANAGE
  else .SKIP

/-- `OrderSide(value) if value else None`, with `None` on `ValueError`. -/
def parseSide (v : Option String) : Option OrderSide :=
  match v with
  | some s => if s = "buy" then some .BUY else if s = "sell" then some .SELL else none
  | none => none

/-- `Timeframe(value)` string parsing. -/
def parseTimeframe (s : String) : Option Timeframe :=
  if s = "M1" then some .M1
  else if s = "M5" then some .M5
  else if s = "M15" then some .M15
  else if s = "H1" then some .H1
  else if s = "H4" then some .H4
  else if s = "D1" then some .D1
  else none

/-- The latest enriched feature row, modelled as a record of the columns the
agents read; an absent column (or a `None`/NaN value) is `none`.  The empty
mapping `{}` is the record with every field `none`. -/
structure Features where
  openPrice : Option ℚ := none
  high : Option ℚ := none
  low : Option ℚ := none
  close : Option ℚ := none
  volume : Option ℚ := none
  timestamp : Option ℚ := none
  ema_50 : Option ℚ := none
  ema_fast : Option ℚ := none
  ema_200 : Option ℚ := none
  ema_slow : Option ℚ := none
  atr : Option ℚ := none
  rvol : Option ℚ := none
  donchian_upper : Option ℚ := none
  donchian_lower : Option ℚ := none
  donchian_mid : Option ℚ := none
deriving DecidableEq, Repr

/-- The empty feature mapping `{}`. -/
def Features.empty : Features := {}

/-- `database.models.Signal` (the fields the core reads; `created_at` and
`expires_at` are wall-clock timestamps and are not modelled). -/
structure Signal where
  id : Option String := none
  symbol : String
  timeframe : Timeframe
  action : SignalAction
  side : Option OrderSide := none
  confidence : ℚ
  entry_price : Option ℚ := none
  stop_loss : Option ℚ := none
  take_profit : Option ℚ := none
  quantity : Option ℚ := none
  risk_amount : Option ℚ := none
  reason : String
  indicators : Features := Features.empty
  market_regime : Option MarketRegime := none
  tags : List String := []
deriving DecidableEq, Repr

/-- Pydantic validation performed when a `Signal` is constructed: symbol
length in `[1, 20]`, confidence in `[0, 1]`, non-negative prices and risk
amount, positive quantity, reason of at least 10 characters.  A violation is
a raised `ValidationError`. -/
def mkSignal (s : Signal) : Except String Signal :=
  if 1 ≤ s.symbol.length ∧ s.symbol.length ≤ 20 ∧
      0 ≤ s.confidence ∧ s.confidence ≤ 1 ∧
      (∀ e ∈ s.entry_price, 0 ≤ e) ∧
      (∀ e ∈ s.stop_loss, 0 ≤ e) ∧
      (∀ e ∈ s.take_profit, 0 ≤ e) ∧
      (∀ e ∈ s.quantity, 0 < e) ∧
      (∀ e ∈ s.risk_amount, 0 ≤ e) ∧
      10 ≤ s.reason.length then
    .ok s
  else .error "ValidationError: Signal"

/-- `database.models.Trade` (the fields the planner sets; timestamp and PnL
fields are not modelled). -/
structure Trade where
  id : Option String := none
  symbol : String
  side : OrderSide
  entry_price : ℚ
  quantity : ℚ
  stop_loss : Option ℚ := none
  take_profit : Option ℚ := none
  status : String := "pending"
  comment : Option String := none
  signal_id : Option String := none
  risk_amount : Option ℚ := none
deriving DecidableEq, Repr

/-- Pydantic validation performed when a `Trade` is constructed: symbol
length in `[1, 20]`, non-negative entry price, positive quantity,
non-negative stop/take levels, take-profit strictly beyond the entry in the
trade's favorable direction, comment of at most 255 characters, non-negative
risk amount. -/
def mkTrade (t : Trade) : Except String Trade :=
  if 1 ≤ t.symbol.length ∧ t.symbol.length ≤ 20 ∧
      0 ≤ t.entry_price ∧ 0 < t.quantity ∧
      (∀ e ∈ t.stop_loss, 0 ≤ e) ∧
      (∀ e ∈ t.take_profit, 0 ≤ e) ∧
      (∀ e ∈ t.take_profit,
        (t.side = .BUY → t.entry_price < e) ∧ (t.side = .SELL → e < t.entry_price)) ∧
      (∀ c ∈ t.comment, c.length ≤ 255) ∧
      (∀ e ∈ t.risk_amount, 0 ≤ e) then
    .ok t
  else .error "ValidationError: Trade"

/-- `database.models.Quote` (the fields the planner reads).  When a quote is
built from raw data, pydantic validators fill `mid_price` with
`(ask + bid) / 2` if it is absent; the planner itself reads the fields as
they are. -/
structure Quote where
  bid : ℚ
  ask : ℚ
  mid_price : Option ℚ := none
deriving DecidableEq, Repr

/-- `database.models.OrderType` (only MARKET and LIMIT are used here). -/
inductive OrderType where
  | MARKET
  | LIMIT
deriving DecidableEq, Repr

/-- `SignalAction.value` as a string. -/
def actionValue : SignalAction → String
  | .ENTER => "enter"
  | .EXIT => "exit"
  | .SKIP => "skip"
  | .MANAGE => "manage"

/-- `execution.ExecutionPlan`.  The `generated_at` metadata entry is a
wall-clock timestamp and is not modelled; `source_action` is. -/
structure ExecutionPlan where
  trade : Trade
  assessment : RiskAssessment
  order_type : OrderType := .MARKET
  slippage : ℚ := 0
  metadata_source_action : String
deriving DecidableEq, Repr

/-- Python `a or b or c` on floats (`None` and `0.0` are falsy; the chain
returns its last operand when all earlier ones are falsy). -/
def pyOr3 (a : ℚ) (b : Option ℚ) (c : ℚ) : ℚ :=
  if a = 0 then
    match b with
    | some m => if m = 0 then c else m
    | none => c
  else a

/-- `ExecutionPlanner._price_from_quote`: with a quote, bid for SELL and ask
otherwise, falling back to the mid price, then to the opposite side's price;
without a quote, the signal's entry price is required. -/
def price_from_quote (signal : Signal) (quote : Option Quote) : Except String ℚ :=
  match quote with
  | none =>
      match signal.entry_price with
      | none => .error "entry price must be provided via signal or quote"
      | some p => .ok p
  | some q =>
      if signal.side = some .SELL then .ok (pyOr3 q.bid q.mid_price q.ask)
      else .ok (pyOr3 q.ask q.mid_price q.bid)

/-- The entry-price resolution of `create_plan`:
`signal.entry_price or self._price_from_quote(signal, quote)` — the signal's
own entry price wins when truthy (present and non-zero). -/
def resolve_entry_price (signal : Signal) (quote : Option Quote) : Except String ℚ :=
  match signal.entry_price with
  | some e => if e = 0 then price_from_quote signal quote else pure e
  | none => price_from_quote signal quote

/-- `ExecutionPlanner.create_plan` (with the planner's default order type
MARKET and default slippage 0, as constructed by both graphs): requires a
side, resolves the entry price as `signal.entry_price or
_price_from_quote(signal, quote)`, reuses or computes a risk assessment, and
builds a pending `Trade`. -/
def create_plan (p : RiskParameters) (signal : Signal) (quote : Option Quote := none)
    (atr_value : Option ℚ := none) (assessment : Option RiskAssessment := none) :
    Except String ExecutionPlan := do
  match signal.side with
  | none => .error "Signal must include trade side"
  | some side =>
      let entry_price ← resolve_entry_price signal quote
      let risk_assessment ←
        match assessment with
        | some a => pure a
        | none =>
            assess_trade p side entry_price signal.stop_loss signal.take_profit atr_value
      let trade ← mkTrade
        { symbol := signal.symbol
          side := side
          entry_price := entry_price
          quantity := risk_assessment.position_size
          stop_loss := some risk_assessment.stop_loss
          take_profit := some risk_assessment.take_profit
          status := "pending"
          comment := some signal.reason
          signal_id := signal.id
          risk_amount := some risk_assessment.risk_amount }
      .ok { trade := trade
            assessment := risk_assessment
            order_type := .MARKET
            slippage := 0
            metadata_source_action := actionValue signal.action }

/-- A position entry inside an account-state snapshot (the keys
`RiskAgent._fallback_report` reads). -/
structure PositionEntry where
  exposure : Option ℚ := none
  quantity : Option ℚ := none
  price : Option ℚ := none
deriving DecidableEq, Repr

/-- The account-state mapping, modelled as the keys the agents and graphs
read.  `correlation_max` stands for `correlation_data["max"]`. -/
structure AccountState where
  account_balance : Option ℚ := none
  open_positions : Option (List PositionEntry) := none
  realized_drawdown : Option ℚ := none
  preferred_timeframe : Option String := none
  market_regime : Option String := none
  risk_per_trade : Option ℚ := none
  max_position : Option ℚ := none
  current_positions : Option (List PositionEntry) := none
  drawdown_history : List ℚ := []
  correlation_max : Option ℚ := none
deriving DecidableEq, Repr

/-- `governance_agent.GovernanceDecision`. -/
structure GovernanceDecision where
  scenario : String
  reason : String
  adjustments : List (String × ℚ) := []
  recommended_timeframe : Option String := none
deriving DecidableEq, Repr

/-- `float(account_state.get("account_balance", 0.0) or 0.0)`. -/
def balanceOf (state : AccountState) : ℚ := (pyOrQ state.account_balance (some 0)).getD 0

/-- `GovernanceAgent.default_balance_threshold`. -/
def default_balance_threshold : ℚ := 5000

/-- `GovernanceAgent.caution_threshold`. -/
def governance_caution_threshold : ℚ := 3000

/-- `GovernanceAgent._fallback_decision`. -/
def fallback_decision (state : AccountState) (preferred : Option String := none) :
    GovernanceDecision :=
  let balance := balanceOf state
  let open_positions := state.open_positions.getD []
  let realized_drawdown := (pyOrQ state.realized_drawdown (some 0)).getD 0
  let scenario_reason :=
    if balance ≥ default_balance_threshold then
      ("swing", "Account balance exceeds swing threshold")
    else if balance ≥ governance_caution_threshold then
      (pyOrS preferred "intraday", "Balance in caution zone, maintain preferred scenario")
    else ("intraday", "Balance below swing threshold")
  let scenario := scenario_reason.1
  let reason :=
    if truthyS preferred ∧ preferred.getD "" ≠ scenario then
      scenario_reason.2 ++ " (override recommendation: " ++ preferred.getD "" ++ ")"
    else scenario_reason.2
  let adjustments :=
    if realized_drawdown > 4 then [("risk_per_trade", (1 : ℚ) / 200)]
    else if balance ≥ default_balance_threshold then [("risk_per_trade", (8 : ℚ) / 1000)]
    else [("risk_per_trade", (1 : ℚ) / 100)]
  let adjustments :=
    if open_positions.length ≥ 5 then adjustments ++ [("rvol_threshold", 2)]
    else adjustments
  { scenario := scenario
    reason := reason
    adjustments := adjustments
    recommended_timeframe := state.preferred_timeframe.map pyUpper }

/-- The `attachments` sub-object of an advisor decision payload. -/
structure Attachments where
  confidence : Option ℚ := none
  reason : Option String := none
  tags : List String := []
  risk_amount : Option ℚ := none
deriving DecidableEq, Repr

/-- A parsed advisor JSON object, modelled as the keys the two parsers read
(`GovernanceAgent.decide` and the signal agents' `_parse_decision`);
a missing key is `none`.  Numeric fields carry the already-coerced float
values (an ill-typed value raises inside the parsers' `try` and lands in the
deterministic fallback, like any other parse failure). -/
structure JsonObj where
  scenario : Option String := none
  reason : Option String := none
  adjustments : List (String × ℚ) := []
  recommended_timeframe : Option String := none
  action : Option String := none
  side : Option String := none
  entry : Option ℚ := none
  entry_price : Option ℚ := none
  sl : Option ℚ := none
  stop_loss : Option ℚ := none
  tp : Option ℚ := none
  take_profit : Option ℚ := none
  size : Option ℚ := none
  quantity : Option ℚ := none
  confidence : Option ℚ := none
  attachments : Option Attachments := none
deriving DecidableEq, Repr

/-- An advisor response, abstracted at the JSON-parse level: empty text,
non-empty text that is not valid JSON (`json.loads` raises
`JSONDecodeError`), valid JSON that is not an object (no `.get` attribute),
or a parsed object. -/
inductive RawText where
  | empty
  | notJson (s : String)
  | jsonNonObject
  | jsonObject (d : JsonObj)
deriving DecidableEq, Repr

/-- The advisor capability as seen by an agent: not configured, raising on
invocation (timeout, network failure, prompt error), or returning text. -/
inductive Advisor where
  | noLLM
  | raises
  | returns (raw : RawText)
deriving DecidableEq, Repr

/-- The advisor-path tail of `GovernanceAgent.decide`, applied to the parsed
data object (an empty object when `_parse_raw_response` swallowed a
`JSONDecodeError`). -/
def governance_from_data (d : JsonObj) (preferred : Option String) : GovernanceDecision :=
  { scenario := pyLower (pyOrS d.scenario (pyOrS preferred "intraday"))
    reason := pyOrS d.reason "LLM decision"
    adjustments := d.adjustments
    recommended_timeframe := d.recommended_timeframe.map pyUpper }

/-- `GovernanceAgent.decide`: without an advisor, or when invocation raises,
or on empty output, the deterministic fallback; non-JSON text parses to an
empty object (the agent's `_parse_raw_response` swallows the decode error)
and follows the advisor path; valid non-object JSON raises `AttributeError`
on `data.get`, outside every `try`. -/
def governance_decide (llm : Advisor) (state : AccountState)
    (preferred : Option String := none) : Except String GovernanceDecision :=
  match llm with
  | .noLLM => .ok (fallback_decision state preferred)
  | .raises => .ok (fallback_decision state preferred)
  | .returns .empty => .ok (fallback_decision state preferred)
  | .returns (.notJson _) => .ok (governance_from_data {} preferred)
  | .returns .jsonNonObject => .error "AttributeError: list object has no attribute get"
  | .returns (.jsonObject d) => .ok (governance_from_data d preferred)

/-- `signal_agent_a._clamp` with its default bounds `[0, 1]`. -/
def clamp01 (value : ℚ) : ℚ := max 0 (min value 1)

/-- `signal_agent_a._ensure_reason`: pad a stripped reason below 10
characters with " decision." and left-justify to width 10 with dots. -/
def ensure_reason (text : String) : String :=
  let cleaned := pyStrip text
  if cleaned.length < 10 then
    let padded := cleaned ++ " decision."
    padded ++ String.mk (List.replicate (10 - padded.length) '.')
  else cleaned

/-- `signal_agent_a.AgentThresholds` (intraday defaults). -/
structure AgentThresholds where
  rvol_threshold : ℚ := 9 / 5
  risk_percent : ℚ := 1
  atr_multiplier : ℚ := 3 / 2
  reward_ratio : ℚ := 2
  partial_r : ℚ := 1
  atr_limit : ℚ := 8
  drawdown_limit : ℚ := 6
deriving DecidableEq, Repr

/-- `signal_agent_b.SwingThresholds` (swing defaults). -/
structure SwingThresholds where
  donchian_high : ℤ := 55
  donchian_low : ℤ := 20
  rvol_threshold : ℚ := 3 / 2
  risk_percent : ℚ := 4 / 5
  atr_multiplier : ℚ := 2
  max_positions : ℕ := 6
  max_correlation : ℚ := 13 / 20
  rebalance_period : String := "weekly"
deriving DecidableEq, Repr

/-- `IntradaySignalAgent._fallback_signal`: trend via fast/slow EMA,
breakout via the Donchian channel, volume gate via RVOL; stop/take/size via
the risk manager when available, else inline ATR arithmetic. -/
def intraday_fallback_signal (th : AgentThresholds) (rm : Option RiskParameters)
    (symbol : String) (timeframe : Timeframe) (features : Features)
    (market_regime : Option String) : Except String Signal := do
  let close_price := features.close
  let ema_fast := pyOrQ features.ema_50 features.ema_fast
  let ema_slow := pyOrQ features.ema_200 features.ema_slow
  let base : Signal :=
    { symbol := symbol
      timeframe := timeframe
      action := .SKIP
      side := none
      confidence := clamp01 (7 / 20)
      entry_price := close_price
      reason := ensure_reason "Недостаточно условий для открытия позиции"
      indicators := features
      market_regime := parseRegime market_regime
      tags := ["skip"] }
  match close_price, ema_fast, ema_slow, features.rvol, features.atr with
  | some close, some ef, some es, some rvol, some atrv =>
      if rvol ≥ th.rvol_threshold then
        let trend_up := ef > es
        let breakout_up := features.donchian_upper.any (fun du => close ≥ du)
        let breakout_down := features.donchian_lower.any (fun dl => close ≤ dl)
        let side : Option OrderSide :=
          if trend_up ∧ breakout_up then some .BUY
          else if ¬trend_up ∧ breakout_down then some .SELL
          else none
        match side with
        | some s => do
            let (stop_loss, take_profit, quantity) ←
              match rm with
              | some p => do
                  let a ← assess_trade p s close none none (some atrv)
                  pure (some a.stop_loss, some a.take_profit, some a.position_size)
              | none =>
                  let dir := direction s
                  let sl := close - dir * atrv * th.atr_multiplier
                  pure (some sl, some (close + dir * (|close - sl| * th.reward_ratio)),
                    (none : Option ℚ))
            mkSignal { base with
              action := .ENTER
              side := some s
              confidence := clamp01 (17 / 25)
              stop_loss := stop_loss
              take_profit := take_profit
              quantity := quantity
              reason := ensure_reason
                "Fallback правила: подтвержден тренд и пробой диапазона с высоким объемом"
              tags := ["fallback"] }
        | none => mkSignal base
      else mkSignal base
  | _, _, _, _, _ => mkSignal base

/-- The signal parsed from an advisor decision object by the intraday
agent's `_parse_decision`. -/
def intraday_parse_decision (d : JsonObj) (symbol : String) (timeframe : Timeframe)
    (features : Features) (market_regime : Option String) : Except String Signal :=
  let action := parseAction (d.action.getD "skip")
  let side := parseSide d.side
  let attachments := d.attachments.getD {}
  let confidence := (d.confidence.orElse (fun _ => some (attachments.confidence.getD (1 / 2)))).getD (1 / 2)
  let reason_text := attachments.reason.getD ((pyOrS d.reason "Intraday decision"))
  mkSignal
    { symbol := symbol
      timeframe := timeframe
      action := action
      side := side
      confidence := clamp01 confidence
      entry_price := pyOrQ d.entry d.entry_price
      stop_loss := pyOrQ d.sl d.stop_loss
      take_profit := pyOrQ d.tp d.take_profit
      quantity := pyOrQ d.size d.quantity
      risk_amount := attachments.risk_amount
      reason := ensure_reason reason_text
      indicators := features
      market_regime := parseRegime market_regime
      tags := attachments.tags }

/-- `IntradaySignalAgent.generate_signal`: no advisor or a raising advisor
falls back; text is parsed via `json.loads(raw or "{}")`, so empty output
becomes an empty object on the parse path, while non-JSON (or non-object
JSON, or any parse/validation failure) falls back. -/
def intraday_generate_signal (th : AgentThresholds) (rm : Option RiskParameters)
    (llm : Advisor) (symbol : String) (timeframe : Timeframe) (features : Features)
    (market_regime : Option String := none) : Except String Signal :=
  match llm with
  | .noLLM => intraday_fallback_signal th rm symbol timeframe features market_regime
  | .raises => intraday_fallback_signal th rm symbol timeframe features market_regime
  | .returns raw =>
      let parsed :=
        match raw with
        | .empty => intraday_parse_decision {} symbol timeframe features market_regime
        | .notJson _ => .error "JSONDecodeError"
        | .jsonNonObject => .error "AttributeError"
        | .jsonObject d => intraday_parse_decision d symbol timeframe features market_regime
      match parsed with
      | .ok s => .ok s
      | .error _ => intraday_fallback_signal th rm symbol timeframe features market_regime

/-- `SwingSignalAgent._fallback_signal`: short-circuits to SKIP when the
portfolio's position count has reached the limit; otherwise trend via the
200-period EMA, breakout via the Donchian channel, volume gate via RVOL. -/
def swing_fallback_signal (th : SwingThresholds) (rm : Option RiskParameters)
    (symbol : String) (timeframe : Timeframe) (indicators : Features)
    (portfolio_positions : List PositionEntry) (market_regime : Option String) :
    Except String Signal := do
  let close_price := indicators.close
  let positions_limit_reached := portfolio_positions.length ≥ th.max_positions
  let base : Signal :=
    { symbol := symbol
      timeframe := timeframe
      action := .SKIP
      side := none
      confidence := clamp01 (9 / 20)
      entry_price := close_price
      reason := ensure_reason "Портфельные условия не позволяют открыть сделку"
      indicators := indicators
      market_regime := parseRegime market_regime
      tags := ["skip"] }
  if positions_limit_reached then
    mkSignal { base with reason := ensure_reason "Достигнут лимит количества позиций" }
  else
    match close_price, indicators.ema_200, indicators.atr, indicators.rvol with
    | some close, some ema200, some atrv, some rvol =>
        if rvol ≥ th.rvol_threshold then
          let side : Option OrderSide :=
            if indicators.donchian_upper.any (fun dh => close ≥ dh) ∧ close ≥ ema200 then
              some .BUY
            else if indicators.donchian_lower.any (fun dl => close ≤ dl) ∧ close ≤ ema200 then
              some .SELL
            else none
          match side with
          | some s => do
              let (stop_loss, take_profit, quantity) ←
                match rm with
                | some p => do
                    let a ← assess_trade p s close none none (some atrv)
                    pure (some a.stop_loss, some a.take_profit, some a.position_size)
                | none =>
                    let dir := direction s
                    let sl := close - dir * atrv * th.atr_multiplier
                    pure (some sl, some (close + dir * (|close - sl| * th.atr_multiplier)),
                      (none : Option ℚ))
              mkSignal { base with
                action := .ENTER
                side := some s
                confidence := clamp01 (31 / 50)
                stop_loss := stop_loss
                take_profit := take_profit
                quantity := quantity
                reason := ensure_reason
                  "Fallback правила: подтвержден пробой Donchian с учетом тренда и объема"
                tags := ["fallback"] }
          | none => mkSignal base
        else mkSignal base
    | _, _, _, _ => mkSignal base

/-- `risk_agent.RiskReport`. -/
structure RiskReport where
  can_trade : Bool
  max_position_size : ℚ
  risk_adjustment_factor : ℚ
  violations : List String
  recommendations : List String
  portfolio_risk : List (String × ℚ)
deriving DecidableEq, Repr

/-- `RiskAgent._fallback_report`. -/
def fallback_report (p : RiskParameters) (state : AccountState) : RiskReport :=
  let balance := state.account_balance.getD p.account_balance
  let positions := state.current_positions.getD []
  let exposures := positions.map (fun pos =>
    match pos.exposure with
    | some e => e
    | none => pos.quantity.getD 0 * pos.price.getD 0)
  let correlation_risk := state.correlation_max.getD 0
  let drawdown_risk := (state.drawdown_history.getLast?).getD 0
  let can_trade := ensure_can_trade drawdown_risk 6
  let violations :=
    (if ¬can_trade then ["Drawdown limit reached"] else []) ++
      (if correlation_risk > 13 / 20 then ["High correlation between positions"] else [])
  let recommendations :=
    (if correlation_risk > 13 / 20 then ["Reduce exposure to correlated instruments"] else []) ++
      (if drawdown_risk > 4 then ["Pause trading until drawdown recovers"] else [])
  { can_trade := can_trade
    max_position_size :=
      (pyOrQ p.max_position (some (balance * p.risk_per_trade))).getD 0
    risk_adjustment_factor :=
      if correlation_risk > 13 / 20 ∨ drawdown_risk > 4 then 1 / 2 else 1
    violations := violations
    recommendations := recommendations
    portfolio_risk := score_portfolio_risk exposures correlation_risk drawdown_risk }

/-- `RiskAgent.assess_signal`: requires a side and an entry price. -/
def assess_signal (p : RiskParameters) (signal : Signal) (atr_value : Option ℚ) :
    Except String RiskAssessment :=
  match signal.side, signal.entry_price with
  | some side, some entry =>
      assess_trade p side entry signal.stop_loss signal.take_profit atr_value
  | _, _ => .error "Signal must define side and entry price for risk assessment"

/-- `exec_agent.ExecutionReport` (the `execution_time` wall-clock field is
not modelled). -/
structure ExecutionReport where
  execution_status : String
  order_id : Option String := none
  executed_price : Option ℚ := none
  executed_volume : Option ℚ := none
  sl_price : Option ℚ := none
  tp_price : Option ℚ := none
  errors : List String := []
  warnings : List String := []
  trade : Trade
deriving DecidableEq, Repr

/-- `ExecutionAgent._fallback_report`: a "pending" report mirroring the
plan's trade. -/
def exec_fallback_report (plan : ExecutionPlan) : ExecutionReport :=
  { execution_status := "pending"
    sl_price := plan.trade.stop_loss
    tp_price := plan.trade.take_profit
    trade := plan.trade }

/-- Python dict assignment `d[k] = v`: update in place, preserving insertion
order, appending a new key at the end. -/
def dictSet (l : List (String × ℚ)) (k : String) (v : ℚ) : List (String × ℚ) :=
  if l.any (fun p => p.1 = k) then l.map (fun p => if p.1 = k then (k, v) else p)
  else l ++ [(k, v)]

/-- Python `d.get(k)` (last binding wins). -/
def dictGet (l : List (String × ℚ)) (k : String) : Option ℚ :=
  ((l.reverse).find? (fun p => p.1 = k)).map (·.2)

/-- `common.merge_adjustments`: merge dictionaries, later values winning on
key collision.  (Values are floats already; the `float` coercion of the
source cannot fail here.) -/
def merge_adjustments (dicts : List (List (String × ℚ))) : List (String × ℚ) :=
  dicts.foldl (fun acc d => d.foldl (fun acc p => dictSet acc p.1 p.2) acc) []

/-- `common.ensure_timeframe` on a string-or-absent input: parse, retry
upper-cased, fall back to the default. -/
def ensure_timeframe (value : Option String) (default : Timeframe) : Timeframe :=
  match value with
  | some s =>
      match parseTimeframe s with
      | some t => t
      | none => (parseTimeframe (pyUpper s)).getD default
  | none => default

/-- `common.signal_requires_management`: true exactly when a signal is
present and its action is ENTER. -/
def signal_requires_management (signal : Option Signal) : Bool :=
  match signal with
  | none => false
  | some s => s.action = .ENTER

/-- `common.apply_signal_defaults`: backfill the entry price from the close
and, for a sided signal without a stop, backfill the stop one raw ATR away
from the entry. -/
def apply_signal_defaults (signal : Signal) (features : Features) : Signal :=
  let signal :=
    if signal.entry_price = none then
      match features.close with
      | some c => { signal with entry_price := some c }
      | none => signal
    else signal
  match signal.side, signal.stop_loss, features.atr, signal.entry_price with
  | some sd, none, some a, some e =>
      if a ≠ 0 ∧ e ≠ 0 then
        { signal with stop_loss := some (e - (if sd = .BUY then 1 else -1) * a) }
      else signal
  | _, _, _, _ => signal

/-- The nodes of both LangGraph state machines. -/
inductive GraphNode where
  | IDLE
  | SETUP
  | ENTER
  | MANAGE
  | EXIT
  | SUMMARY
deriving DecidableEq, Repr

/-- `route_after_enter` (identical in both graph builders). -/
def route_after_enter (signal : Option Signal) : String :=
  if signal_requires_management signal then "manage" else "skip"

/-- The node sequence of one run of the intraday graph, as wired by
`build_intraday_graph`: IDLE → SETUP → ENTER, then the conditional edge
maps "manage" to MANAGE → EXIT → SUMMARY and "skip" straight to SUMMARY. -/
def intraday_run_nodes (signal : Option Signal) : List GraphNode :=
  [.IDLE, .SETUP, .ENTER] ++
    (if route_after_enter signal = "manage" then [.MANAGE, .EXIT, .SUMMARY] else [.SUMMARY])

/-- The node sequence of one run of the swing graph, as wired by
`build_swing_graph` (the same wiring as the intraday graph). -/
def swing_run_nodes (signal : Option Signal) : List GraphNode :=
  [.IDLE, .SETUP, .ENTER] ++
    (if route_after_enter signal = "manage" then [.MANAGE, .EXIT, .SUMMARY] else [.SUMMARY])

/-- `intraday_graph.IntradayGraphConfig` (with
`settings.account_risk_per_trade` at its default `0.01`). -/
structure IntradayGraphConfig where
  default_balance : ℚ := 10000
  contract_size : ℚ := 1
  min_position : ℚ := 1 / 100
  max_position : ℚ := 5
  base_risk_per_trade : ℚ := 1 / 100
deriving DecidableEq, Repr

/-- `default_intraday_dependencies.build_risk_parameters`. -/
def build_risk_parameters_intraday (cfg : IntradayGraphConfig) (state : AccountState)
    (adjustments : List (String × ℚ)) : RiskParameters :=
  let balance := (pyOrQ state.account_balance (some cfg.default_balance)).getD cfg.default_balance
  let risk_per_trade :=
    (dictGet adjustments "risk_per_trade").getD (state.risk_per_trade.getD cfg.base_risk_per_trade)
  let max_position :=
    (pyOrQ (dictGet adjustments "max_position")
      (pyOrQ state.max_position (some cfg.max_position))).getD cfg.max_position
  { account_balance := balance
    risk_per_trade := risk_per_trade
    contract_size := cfg.contract_size
    min_position := cfg.min_position
    max_position := some max_position
    reward_risk := 2
    atr_multiplier := 3 / 2 }

/-- `intraday_graph._apply_signal_adjustments` (also the threshold loop of
`make_signal_agent`, whose filtered dict plus key dispatch has the same
effect): fold the adjustment entries into the agent thresholds, clamping
from below. -/
def apply_signal_adjustments (th : AgentThresholds) (adjustments : List (String × ℚ)) :
    AgentThresholds :=
  adjustments.foldl (fun th p =>
    if p.1 = "atr_multiplier" then { th with atr_multiplier := max (1 / 2) p.2 }
    else if p.1 = "rvol_threshold" then { th with rvol_threshold := max (1 / 2) p.2 }
    else if p.1 = "risk_per_trade" then { th with risk_percent := max (1 / 10) (p.2 * 100) }
    else if p.1 = "risk_percent" then { th with risk_percent := max (1 / 10) p.2 }
    else if p.1 = "atr_limit" then { th with atr_limit := max (1 / 2) p.2 }
    else th) th

/-- `intraday_graph._update_risk_parameters`. -/
def update_risk_parameters (p : RiskParameters) (adjustments : List (String × ℚ)) :
    RiskParameters :=
  let p :=
    match dictGet adjustments "risk_per_trade" with
    | some v => { p with risk_per_trade := max (1 / 1000) v }
    | none => p
  match dictGet adjustments "max_position" with
  | some v => { p with max_position := some v }
  | none => p

/-- `intraday_graph._derive_stat_adjustments`: ATR-ratio and RVOL based
threshold nudges (zero statistics are falsy and skip a nudge). -/
def derive_stat_adjustments (stats : List (String × ℚ)) (th : AgentThresholds)
    (p : RiskParameters) : List (String × ℚ) :=
  let atr_recent := dictGet stats "atr_recent"
  let atr_mean := dictGet stats "atr_mean"
  let rvol_recent := dictGet stats "rvol_recent"
  let adjustments : List (String × ℚ) := []
  let adjustments :=
    match atr_recent, atr_mean with
    | some ar, some am =>
        if ar ≠ 0 ∧ am ≠ 0 then
          let ratio := max (1 / 2) (min 3 (ar / am))
          dictSet
            (dictSet adjustments "atr_multiplier"
              (roundTo 2 (max 1 (min (7 / 2) (th.atr_multiplier * ratio)))))
            "risk_per_trade"
            (roundTo 4 (max (1 / 500) (min (1 / 50) (p.risk_per_trade / ratio))))
        else adjustments
    | _, _ => adjustments
  match rvol_recent with
  | some r =>
      if r ≠ 0 then
        dictSet adjustments "rvol_threshold"
          (roundTo 2 (max 1 (min (7 / 2) ((r + th.rvol_threshold) / 2))))
      else adjustments
  | none => adjustments

/-- An OHLCV bar of the input market-data frame. -/
structure Bar where
  openPrice : ℚ
  high : ℚ
  low : ℚ
  close : ℚ
  volume : ℚ
  timestamp : Option ℚ := none
deriving DecidableEq, Repr

/-- A row of the enriched frame produced by `enrich_with_indicators`. -/
structure EnrichedRow where
  bar : Bar
  ema_50 : EF
  ema_200 : EF
  atr : EF
  rvol : EF
  donchian_upper : EF
  donchian_lower : EF
  donchian_mid : EF
deriving DecidableEq, Repr

/-- Column access by position (columns of one computation always have the
frame's length; NaN is the out-of-range placeholder). -/
def colAt (l : List EF) (i : ℕ) : EF := l.getD i .nan

/-- `features.enrich_with_indicators` with its default periods
(EMA 50/200, ATR 14, RVOL 20, Donchian 20).  A `Bar` record always carries
the required columns, so the missing-columns branch is unrepresentable. -/
def enrich_with_indicators (frame : List Bar) : Except String (List EnrichedRow) := do
  let closes := frame.map (fun b => EF.fin b.close)
  let e50 ← ema 50 closes
  let e200 ← ema 200 closes
  let atrCol ← atr 14 (frame.map (fun b => ⟨.fin b.high, .fin b.low, .fin b.close⟩))
  let rvolCol ← relative_volume 20 (frame.map (fun b => EF.fin b.volume))
  let dc ← donchian_channels 20 (frame.map (fun b => ⟨.fin b.high, .fin b.low⟩))
  .ok ((List.range frame.length).map (fun i =>
    { bar := frame.getD i ⟨0, 0, 0, 0, 0, none⟩
      ema_50 := colAt e50 i
      ema_200 := colAt e200 i
      atr := colAt atrCol i
      rvol := colAt rvolCol i
      donchian_upper := colAt dc.upper i
      donchian_lower := colAt dc.lower i
      donchian_mid := colAt dc.middle i }))

/-- The column names of a raw OHLCV frame. -/
def bar_columns : List String := ["open", "high", "low", "close", "volume", "timestamp"]

/-- Column lookup on a raw bar. -/
def bar_column (b : Bar) : String → Option ℚ := fun c =>
  if c = "open" then some b.openPrice
  else if c = "high" then some b.high
  else if c = "low" then some b.low
  else if c = "close" then some b.close
  else if c = "volume" then some b.volume
  else if c = "timestamp" then b.timestamp
  else none

/-- The `_statistics` branch of `common.compute_feature_set`: tail-window
mean and latest value for each of the "atr"/"rvol" columns PRESENT IN THE
RAW INPUT FRAME.  A raw OHLCV frame has neither column, so the intersection
is empty and the statistics dictionary is always empty here. -/
def statistics_of (frame : List Bar) : List (String × ℚ) :=
  if frame.isEmpty then []
  else
    let tail := frame.drop (frame.length - 30)
    (["atr", "rvol"].filter (fun c => bar_columns.contains c)).flatMap (fun c =>
      let series := tail.filterMap (fun b => bar_column b c)
      [(c ++ "_mean", (series.foldl (· + ·) 0) / series.length),
       (c ++ "_recent", ((series.getLast?).getD 0))])

/-- `common._sanitize_value` on a float cell: NaN becomes `None`.  (For
finite bar input the enriched columns contain no infinities — see the
finiteness lemmas — so collapsing every non-finite value to `none` is
exact.) -/
def efToOpt : EF → Option ℚ
  | .fin q => some q
  | _ => none

/-- `common.latest_feature_row`: the last enriched row as a feature
mapping, `{}` for an empty frame. -/
def latest_feature_row (frame : List EnrichedRow) : Features :=
  match frame.getLast? with
  | none => Features.empty
  | some r =>
      { openPrice := some r.bar.openPrice
        high := some r.bar.high
        low := some r.bar.low
        close := some r.bar.close
        volume := some r.bar.volume
        timestamp := r.bar.timestamp
        ema_50 := efToOpt r.ema_50
        ema_200 := efToOpt r.ema_200
        atr := efToOpt r.atr
        rvol := efToOpt r.rvol
        donchian_upper := efToOpt r.donchian_upper
        donchian_lower := efToOpt r.donchian_lower
        donchian_mid := efToOpt r.donchian_mid }

/-- The flattened result record built by the SUMMARY node. -/
structure CycleResult where
  path : List GraphNode
  scenario : String
  governance : GovernanceDecision
  features : Features
  stats : List (String × ℚ)
  adjustments : List (String × ℚ)
  signal : Option Signal
  risk_assessment : Option RiskAssessment
  risk_report : Option RiskReport
  execution_plan : Option ExecutionPlan
  execution_report : Option ExecutionReport
  logs : List String
deriving DecidableEq, Repr

/-- One run of the compiled intraday graph with its default dependencies
(no advisor anywhere, so every agent uses its deterministic path).  The
nodes execute in the wired order; the returned record also carries the
visited node sequence.  In-place mutation of the shared threshold and
risk-parameter objects during SETUP is modelled by threading the updated
values. -/
def run_intraday_cycle (symbol : String) (timeframe_input : Option String)
    (market_data : List Bar) (account_state : AccountState)
    (latest_quote : Option Quote) : Except String CycleResult := do
  -- IDLE
  let decision := fallback_decision account_state (some "intraday")
  let default_tf :=
    match decision.recommended_timeframe with
    | some s => if s = "" then Timeframe.M15 else ensure_timeframe (some s) Timeframe.M15
    | none => Timeframe.M15
  let timeframe := ensure_timeframe timeframe_input default_tf
  let adjustments := decision.adjustments
  let risk_parameters := build_risk_parameters_intraday {} account_state adjustments
  let thresholds := apply_signal_adjustments {} adjustments
  let logs := ["Governance scenario: " ++ decision.scenario]
  -- SETUP
  let setup ←
    match market_data with
    | [] =>
      .ok ((none : Option Features), ([] : List (String × ℚ)), adjustments, thresholds,
        risk_parameters, logs ++ ["Недостаточно рыночных данных для расчета индикаторов"])
    | _ :: _ => do
      let enriched ← enrich_with_indicators market_data
      let stats := statistics_of market_data
      let features := latest_feature_row enriched
      let stat_adjustments := derive_stat_adjustments stats thresholds risk_parameters
      let combined := merge_adjustments [adjustments, stat_adjustments]
      .ok (some features, stats, combined, apply_signal_adjustments thresholds combined,
        update_risk_parameters risk_parameters combined,
        logs ++ ["Технические индикаторы обновлены"])
  let (features_opt, stats, adjustments2, thresholds2, risk_parameters2, logs2) := setup
  -- ENTER
  let features := features_opt.getD Features.empty
  let signal0 ← intraday_generate_signal thresholds2 (some risk_parameters2) .noLLM
    symbol timeframe features account_state.market_regime
  let signal := apply_signal_defaults signal0 features
  let logs3 := logs2 ++ ["Сигнал сформирован: " ++ actionValue signal.action]
  -- conditional edge after ENTER
  if signal_requires_management (some signal) then do
    -- MANAGE
    let risk_assessment ← assess_signal risk_parameters2 signal features.atr
    let risk_report := fallback_report risk_parameters2 account_state
    let _thresholds3 :=
      { thresholds2 with partial_r := max (1 / 2) (min (3 / 2) risk_assessment.reward_ratio) }
    let logs4 := logs3 ++ ["Риск-параметры обновлены"]
    -- EXIT
    let plan ← create_plan risk_parameters2 signal latest_quote features.atr none
    let report := exec_fallback_report plan
    let logs5 := logs4 ++ ["План исполнения подготовлен"]
    -- SUMMARY
    .ok { path := intraday_run_nodes (some signal)
          scenario := decision.scenario
          governance := decision
          features := features
          stats := stats
          adjustments := adjustments2
          signal := some signal
          risk_assessment := some risk_assessment
          risk_report := some risk_report
          execution_plan := some plan
          execution_report := some report
          logs := logs5 }
  else
    -- SUMMARY (MANAGE and EXIT are skipped)
    .ok { path := intraday_run_nodes (some signal)
          scenario := decision.scenario
          governance := decision
          features := features
          stats := stats
          adjustments := adjustments2
          signal := some signal
          risk_assessment := none
          risk_report := none
          execution_plan := none
          execution_report := none
          logs := logs3 }

/-- The entry price of a successfully created plan (`none` when planning
raised). -/
def entryPriceOf (r : Except String ExecutionPlan) : Option ℚ :=
  match r with
  | .ok pl => some pl.trade.entry_price
  | .error _ => none

/-- Example risk parameters: a healthy account with the dataclass defaults. -/
def exampleParams : RiskParameters := { account_balance := 10000 }

/-- Example SELL signal carrying its own entry price `50`. -/
def exampleSellSignal : Signal :=
  { symbol := "XAUUSD"
    timeframe := .M15
    action := .ENTER
    side := some .SELL
    confidence := 1 / 2
    entry_price := some 50
    reason := "manual test reason"
    tags := [] }

/-- Example quote with bid 100 and ask 101 (pydantic fills the mid price
with `100.5`). -/
def exampleQuote : Quote := { bid := 100, ask := 101, mid_price := some (201 / 2) }

/-- Example SKIP signal (used to instantiate routing theorems). -/
def exampleSkipSignal : Signal :=
  { symbol := "XAUUSD"
    timeframe := .M15
    action := .SKIP
    side := none
    confidence := 7 / 20
    reason := "no entry conditions met"
    tags := ["skip"] }

/-- The feature row of the C7 scenario: close 2010, fast EMA 2005, slow EMA
1990, Donchian upper 2008, RVOL 2 — and no ATR. -/
def exampleIntradayFeatures : Features :=
  { close := some 2010
    ema_fast := some 2005
    ema_slow := some 1990
    donchian_upper := some 2008
    rvol := some 2 }

end Atl

deriving instance DecidableEq for Except

namespace Atl

unseal Rat.mul Rat.add Rat.sub Rat.inv Rat.ofScientific

/-- C1 (counterexample): the claim says that whenever a live quote is
supplied, the entry price is resolved from the quote (bid = 100 for this
SELL signal); but `create_plan` computes `signal.entry_price or
_price_from_quote(...)`, so a signal carrying entry price 50 keeps 50 even
though the supplied quote has bid 100. -/
theorem create_plan_signal_price_overrides_quote :
    entryPriceOf (create_plan exampleParams exampleSellSignal (some exampleQuote) none none) =
        some 50 ∧
      exampleQuote.bid = 100 ∧ (50 : ℚ) ≠ 100 := by
  refine ⟨by decide, rfl, by norm_num⟩

/-- Bind on a successful `Except` computation. -/
theorem except_ok_bind {ε α β : Type} (a : α) (f : α → Except ε β) :
    (Except.ok a >>= f : Except ε β) = f a := rfl

/-- Bind on a failed `Except` computation. -/
theorem except_err_bind {ε α β : Type} (e : ε) (f : α → Except ε β) :
    (Except.error e >>= f : Except ε β) = .error e := rfl

/-- Bind on a pure `Except` computation. -/
theorem except_pure_bind {ε α β : Type} (a : α) (f : α → Except ε β) :
    ((pure a : Except ε α) >>= f) = f a := rfl

/-- C1 (amended): for every signal whose side is set and whose own entry
price is unset (absent or `0.0`), `create_plan` with a live quote resolves
the plan's entry price from the quote — ask for BUY, bid for SELL, falling
back to the mid price, then to the opposite side's price — whenever a plan
is produced at all. -/
theorem create_plan_entry_resolved_from_quote (p : RiskParameters) (signal : Signal)
    (q : Quote) (atr_value : Option ℚ) (assessment : Option RiskAssessment)
    (side : OrderSide) (hside : signal.side = some side)
    (hentry : signal.entry_price = none ∨ signal.entry_price = some 0) :
    entryPriceOf (create_plan p signal (some q) atr_value assessment) = none ∨
      entryPriceOf (create_plan p signal (some q) atr_value assessment) =
        some (if side = .SELL then pyOr3 q.bid q.mid_price q.ask
          else pyOr3 q.ask q.mid_price q.bid) := by
  have hpq : price_from_quote signal (some q) =
      .ok (if side = .SELL then pyOr3 q.bid q.mid_price q.ask
        else pyOr3 q.ask q.mid_price q.bid) := by
    by_cases hs : side = OrderSide.SELL <;> simp [price_from_quote, hside, hs]
  have hres : resolve_entry_price signal (some q) =
      .ok (if side = .SELL then pyOr3 q.bid q.mid_price q.ask
        else pyOr3 q.ask q.mid_price q.bid) := by
    rcases hentry with h | h <;> simp [resolve_entry_price, h, hpq]
  unfold create_plan
  simp only [hside]
  rw [hres]
  generalize (if side = OrderSide.SELL then pyOr3 q.bid q.mid_price q.ask
    else pyOr3 q.ask q.mid_price q.bid) = R
  simp only [except_ok_bind]
  rcases assessment with _ | a
  · rcases hA : assess_trade p side R signal.stop_loss signal.take_profit atr_value
      with e | ra
    · left
      simp [hA, except_err_bind, entryPriceOf]
    · simp only [hA, except_ok_bind]
      unfold mkTrade
      split
      · right; simp [except_ok_bind, entryPriceOf]
      · left; simp [except_err_bind, entryPriceOf]
  · simp only [except_pure_bind]
    unfold mkTrade
    split
    · right; simp [except_ok_bind, entryPriceOf]
    · left; simp [except_err_bind, entryPriceOf]

/-- C1 (witness): the amended claim at the concrete input of the spec's
example — a SELL signal with no entry price and quote bid 100 / ask 101
yields a plan whose entry price is 100 (the bid). -/
theorem create_plan_entry_resolved_from_quote_witness :
    entryPriceOf
        (create_plan exampleParams { exampleSellSignal with entry_price := none }
          (some exampleQuote) none none) =
      some 100 := by
  rcases create_plan_entry_resolved_from_quote exampleParams
      { exampleSellSignal with entry_price := none } exampleQuote none none .SELL rfl
      (Or.inl rfl) with h | h
  · exact absurd h (by decide)
  · exact h.trans (by decide)

/-- C2: in both graphs' wiring, the MANAGE and EXIT nodes are part of the
run exactly when the signal produced at ENTER has action ENTER; any other
action routes ENTER directly to SUMMARY. -/
theorem manage_exit_run_iff_enter_action (s : Signal) :
    ((GraphNode.MANAGE ∈ intraday_run_nodes (some s) ∧
        GraphNode.EXIT ∈ intraday_run_nodes (some s)) ↔ s.action = .ENTER) ∧
    ((GraphNode.MANAGE ∈ swing_run_nodes (some s) ∧
        GraphNode.EXIT ∈ swing_run_nodes (some s)) ↔ s.action = .ENTER) ∧
    intraday_run_nodes (some s) =
      (if s.action = .ENTER then
        [.IDLE, .SETUP, .ENTER, .MANAGE, .EXIT, .SUMMARY]
      else [.IDLE, .SETUP, .ENTER, .SUMMARY]) ∧
    swing_run_nodes (some s) =
      (if s.action = .ENTER then
        [.IDLE, .SETUP, .ENTER, .MANAGE, .EXIT, .SUMMARY]
      else [.IDLE, .SETUP, .ENTER, .SUMMARY]) := by
  rcases hs : s.action <;>
    simp [intraday_run_nodes, swing_run_nodes, route_after_enter,
      signal_requires_management, hs]

/-- C6: the governance fallback maps balance at least 5000 to "swing",
balance in the caution band `[3000, 5000)` to the caller preference (or
"intraday"), and lower balances to "intraday" — so outside the caution band
the computed scenario wins — and whenever a truthy preference differs from
the chosen scenario the reason carries an override note. -/
theorem governance_fallback_scenario_mapping (state : AccountState)
    (preferred : Option String) :
    (fallback_decision state preferred).scenario =
      (if balanceOf state ≥ 5000 then "swing"
        else if balanceOf state ≥ 3000 then pyOrS preferred "intraday"
        else "intraday") ∧
    ∀ pf, preferred = some pf → pf ≠ "" →
      pf ≠ (fallback_decision state preferred).scenario →
      (fallback_decision state preferred).reason =
        (if balanceOf state ≥ 5000 then "Account balance exceeds swing threshold"
          else if balanceOf state ≥ 3000 then
            "Balance in caution zone, maintain preferred scenario"
          else "Balance below swing threshold") ++
          " (override recommendation: " ++ pf ++ ")" := by
  have hscen : (fallback_decision state preferred).scenario =
      (if balanceOf state ≥ 5000 then "swing"
        else if balanceOf state ≥ 3000 then pyOrS preferred "intraday"
        else "intraday") := by
    unfold fallback_decision default_balance_threshold governance_caution_threshold
    by_cases h1 : balanceOf state ≥ 5000
    · simp [h1]
    · by_cases h2 : balanceOf state ≥ 3000 <;> simp [h1, h2]
  refine ⟨hscen, ?_⟩
  intro pf hpf hne hdiff
  rw [hscen] at hdiff
  subst hpf
  unfold fallback_decision default_balance_threshold governance_caution_threshold
  by_cases h1 : balanceOf state ≥ 5000
  · rw [if_pos h1] at hdiff
    simp [h1, truthyS, hne, hdiff]
  · by_cases h2 : balanceOf state ≥ 3000
    · rw [if_neg h1, if_pos h2] at hdiff
      have hpy : pyOrS (some pf) "intraday" = pf := by simp [pyOrS, hne]
      exact absurd hpy.symm hdiff
    · rw [if_neg h1, if_neg h2] at hdiff
      simp [h1, h2, truthyS, hne, hdiff]

/-- C6 (witness): balance 8000 with preference "intraday" — the computed
scenario wins ("swing") and the reason notes the override. -/
theorem governance_fallback_scenario_mapping_witness :
    (fallback_decision { account_balance := some 8000 } (some "intraday")).scenario =
        "swing" ∧
      (fallback_decision { account_balance := some 8000 } (some "intraday")).reason =
        "Account balance exceeds swing threshold (override recommendation: intraday)" := by
  have h := governance_fallback_scenario_mapping
    { account_balance := some 8000 } (some "intraday")
  refine ⟨h.1.trans (by decide), (h.2 "intraday" rfl (by decide) (by decide)).trans (by decide)⟩

/-- C7 (counterexample): at exactly the features of the claim — close 2010,
fast EMA 2005, slow EMA 1990, Donchian upper 2008, RVOL 2 against threshold
1.8, and no other features — the intraday fallback returns SKIP with no
side, not ENTER/BUY, because the required ATR feature is absent. -/
theorem intraday_fallback_without_atr_skips :
    Except.map (fun s => (s.action, s.side))
        (intraday_fallback_signal {} none "XAUUSD" .M15 exampleIntradayFeatures none) =
      .ok (SignalAction.SKIP, none) ∧
    SignalAction.SKIP ≠ SignalAction.ENTER := by
  refine ⟨by decide, by decide⟩

/-- C7 (amended): with the ATR feature additionally present (value 5), the
intraday fallback produces ENTER with side BUY at those features. -/
theorem intraday_fallback_enter_buy_with_atr :
    Except.map (fun s => (s.action, s.side))
        (intraday_fallback_signal {} none "XAUUSD" .M15
          { exampleIntradayFeatures with atr := some 5 } none) =
      .ok (SignalAction.ENTER, some OrderSide.BUY) := by
  decide

/-- C8: the swing fallback short-circuits to SKIP with the position-limit
reason ("Достигнут лимит количества позиций", Russian for "position limit
reached") whenever the portfolio position count has reached `max_positions`
(default 6), regardless of trend, breakout, or volume features.  (A symbol
of valid length and a non-negative close are required for the signal model's
construction to validate.) -/
theorem swing_fallback_position_limit_skip (rm : Option RiskParameters) (sym : String)
    (tf : Timeframe) (indicators : Features) (positions : List PositionEntry)
    (regime : Option String) (hsym : 1 ≤ sym.length ∧ sym.length ≤ 20)
    (hclose : ∀ c ∈ indicators.close, 0 ≤ c)
    (hlimit : 6 ≤ positions.length) :
    ∃ s, swing_fallback_signal {} rm sym tf indicators positions regime = .ok s ∧
      s.action = .SKIP ∧ s.side = none ∧
      s.reason = "Достигнут лимит количества позиций" := by
  simp only [swing_fallback_signal]
  rw [if_pos (show positions.length ≥ ({} : SwingThresholds).max_positions from hlimit)]
  unfold mkSignal
  split
  · exact ⟨_, rfl, rfl, rfl, rfl⟩
  · next hcond =>
      exact absurd
        ⟨hsym.1, hsym.2, le_max_left 0 _, by norm_num [clamp01], hclose,
          by simp, by simp, by simp, by simp,
          (by decide :
            10 ≤ (ensure_reason "Достигнут лимит количества позиций").length)⟩ hcond

/-- C8 (witness): six open positions with rich ENTER-favouring features
still produce SKIP with the position-limit reason. -/
theorem swing_fallback_position_limit_skip_witness :
    ∃ s, swing_fallback_signal {} none "EURUSD" .H1
        { close := some 100, ema_200 := some 90, donchian_upper := some 95,
          rvol := some 3, atr := some 2 }
        [{}, {}, {}, {}, {}, {}] none = .ok s ∧
      s.action = .SKIP ∧ s.side = none ∧
      s.reason = "Достигнут лимит количества позиций" :=
  swing_fallback_position_limit_skip none "EURUSD" .H1
    { close := some 100, ema_200 := some 90, donchian_upper := some 95,
      rvol := some 3, atr := some 2 }
    [{}, {}, {}, {}, {}, {}] none (by decide) (by decide) (by decide)

/-- A finite float value carries a rational. -/
theorem EF.isFin_iff {x : EF} : x.isFin = true ↔ ∃ q, x = .fin q := by
  cases x <;> simp [EF.isFin]

/-- Addition of finite values is finite. -/
theorem EF.add_isFin {x y : EF} (hx : x.isFin = true) (hy : y.isFin = true) :
    (EF.add x y).isFin = true := by
  cases x <;> cases y <;> simp_all [EF.isFin, EF.add]

/-- Negation of a finite value is finite. -/
theorem EF.neg_isFin {x : EF} (hx : x.isFin = true) : (EF.neg x).isFin = true := by
  cases x <;> simp_all [EF.isFin, EF.neg]

/-- Subtraction of finite values is finite. -/
theorem EF.sub_isFin {x y : EF} (hx : x.isFin = true) (hy : y.isFin = true) :
    (EF.sub x y).isFin = true :=
  EF.add_isFin hx (EF.neg_isFin hy)

/-- Multiplication of finite values is finite. -/
theorem EF.mul_isFin {x y : EF} (hx : x.isFin = true) (hy : y.isFin = true) :
    (EF.mul x y).isFin = true := by
  cases x <;> cases y <;> simp_all [EF.isFin, EF.mul]

/-- The absolute value of a finite value is finite. -/
theorem EF.abs_isFin {x : EF} (hx : x.isFin = true) : (EF.abs x).isFin = true := by
  cases x <;> simp_all [EF.isFin, EF.abs]

/-- The pandas maximum of finite values is finite. -/
theorem EF.pmax_isFin {x y : EF} (hx : x.isFin = true) (hy : y.isFin = true) :
    (EF.pmax x y).isFin = true := by
  cases x <;> cases y <;> simp_all [EF.isFin, EF.pmax]

/-- The pandas minimum of finite values is finite. -/
theorem EF.pmin_isFin {x y : EF} (hx : x.isFin = true) (hy : y.isFin = true) :
    (EF.pmin x y).isFin = true := by
  cases x <;> cases y <;> simp_all [EF.isFin, EF.pmin]

/-- Division of a finite value by a non-zero rational is finite. -/
theorem EF.div_isFin {x : EF} {a : ℚ} (hx : x.isFin = true) (ha : a ≠ 0) :
    (EF.div x (.fin a)).isFin = true := by
  cases x <;> simp_all [EF.isFin, EF.div]

/-- Folding addition over finite values from a finite start stays finite. -/
theorem foldl_add_isFin (l : List EF) (h : ∀ x ∈ l, x.isFin = true) :
    ∀ a : EF, a.isFin = true → (l.foldl EF.add a).isFin = true := by
  induction l with
  | nil => intro a ha; simpa using ha
  | cons x xs ih =>
      intro a ha
      simp only [List.foldl_cons]
      exact ih (fun y hy => h y (List.mem_cons_of_mem _ hy)) _
        (EF.add_isFin ha (h x (List.mem_cons_self _ _)))

/-- The sum of a list of finite values is finite. -/
theorem sumEF_isFin (l : List EF) (h : ∀ x ∈ l, x.isFin = true) :
    (sumEF l).isFin = true :=
  foldl_add_isFin l h _ rfl

/-- The mean of a non-empty list of finite values is finite. -/
theorem meanEF_isFin (l : List EF) (hne : l ≠ []) (h : ∀ x ∈ l, x.isFin = true) :
    (meanEF l).isFin = true :=
  EF.div_isFin (sumEF_isFin l h)
    (Nat.cast_ne_zero.mpr (List.length_pos.mpr hne).ne')

/-- A rolling window over an index inside the series is non-empty when the
window parameter is positive. -/
theorem windowAt_ne_nil {p : ℕ} (hp : 0 < p) {xs : List EF} {i : ℕ}
    (hi : i < xs.length) : windowAt p xs i ≠ [] := by
  have h : (windowAt p xs i).length = min (i + 1) xs.length - (i + 1 - p) := by
    simp [windowAt, List.length_drop, List.length_take]
  intro hnil
  rw [hnil] at h
  simp only [List.length_nil] at h
  omega

/-- A rolling window only contains elements of the series. -/
theorem windowAt_subset (p : ℕ) (xs : List EF) (i : ℕ) : windowAt p xs i ⊆ xs := by
  intro x hx
  exact List.take_subset _ _ (List.drop_subset _ _ hx)

/-- Rolling application preserves the series length. -/
theorem rollingApply_length (p : ℕ) (f : List EF → EF) (xs : List EF) :
    (rollingApply p f xs).length = xs.length := by
  simp [rollingApply]

/-- Every element of a rolling application is the aggregate of a window. -/
theorem rollingApply_mem {p : ℕ} {f : List EF → EF} {xs : List EF} {y : EF}
    (hy : y ∈ rollingApply p f xs) :
    ∃ i, i < xs.length ∧ y = f (windowAt p xs i) := by
  simp only [rollingApply, List.mem_map, List.mem_range] at hy
  obtain ⟨i, hi, rfl⟩ := hy
  exact ⟨i, hi, rfl⟩

/-- Rolling means of finite series are finite. -/
theorem rollingMean_isFin {p : ℕ} (hp : 0 < p) (xs : List EF)
    (h : ∀ x ∈ xs, x.isFin = true) : ∀ y ∈ rollingMean p xs, y.isFin = true := by
  intro y hy
  obtain ⟨i, hi, rfl⟩ := rollingApply_mem hy
  exact meanEF_isFin _ (windowAt_ne_nil hp hi)
    (fun x hx => h x (windowAt_subset p xs i hx))

/-- Folding the pandas maximum over finite values from a finite start stays
finite. -/
theorem foldl_pmax_isFin (l : List EF) (h : ∀ x ∈ l, x.isFin = true) :
    ∀ a : EF, a.isFin = true → (l.foldl EF.pmax a).isFin = true := by
  induction l with
  | nil => intro a ha; simpa using ha
  | cons x xs ih =>
      intro a ha
      simp only [List.foldl_cons]
      exact ih (fun y hy => h y (List.mem_cons_of_mem _ hy)) _
        (EF.pmax_isFin ha (h x (List.mem_cons_self _ _)))

/-- Folding the pandas minimum over finite values from a finite start stays
finite. -/
theorem foldl_pmin_isFin (l : List EF) (h : ∀ x ∈ l, x.isFin = true) :
    ∀ a : EF, a.isFin = true → (l.foldl EF.pmin a).isFin = true := by
  induction l with
  | nil => intro a ha; simpa using ha
  | cons x xs ih =>
      intro a ha
      simp only [List.foldl_cons]
      exact ih (fun y hy => h y (List.mem_cons_of_mem _ hy)) _
        (EF.pmin_isFin ha (h x (List.mem_cons_self _ _)))

/-- Rolling maxima of finite series are finite. -/
theorem rollingMax_isFin {p : ℕ} (hp : 0 < p) (xs : List EF)
    (h : ∀ x ∈ xs, x.isFin = true) : ∀ y ∈ rollingMax p xs, y.isFin = true := by
  intro y hy
  obtain ⟨i, hi, rfl⟩ := rollingApply_mem hy
  have hmem : ∀ x ∈ windowAt p xs i, x.isFin = true :=
    fun x hx => h x (windowAt_subset p xs i hx)
  rcases hw : windowAt p xs i with _ | ⟨c, rest⟩
  · exact absurd hw (windowAt_ne_nil hp hi)
  · rw [hw] at hmem
    simp only [List.foldl_cons]
    have hstep : EF.pmax .nan c = c := by cases c <;> rfl
    rw [hstep]
    exact foldl_pmax_isFin rest (fun x hx => hmem x (List.mem_cons_of_mem _ hx)) c
      (hmem c (List.mem_cons_self _ _))

/-- Rolling minima of finite series are finite. -/
theorem rollingMin_isFin {p : ℕ} (hp : 0 < p) (xs : List EF)
    (h : ∀ x ∈ xs, x.isFin = true) : ∀ y ∈ rollingMin p xs, y.isFin = true := by
  intro y hy
  obtain ⟨i, hi, rfl⟩ := rollingApply_mem hy
  have hmem : ∀ x ∈ windowAt p xs i, x.isFin = true :=
    fun x hx => h x (windowAt_subset p xs i hx)
  rcases hw : windowAt p xs i with _ | ⟨c, rest⟩
  · exact absurd hw (windowAt_ne_nil hp hi)
  · rw [hw] at hmem
    simp only [List.foldl_cons]
    have hstep : EF.pmin .nan c = c := by cases c <;> rfl
    rw [hstep]
    exact foldl_pmin_isFin rest (fun x hx => hmem x (List.mem_cons_of_mem _ hx)) c
      (hmem c (List.mem_cons_self _ _))

/-- The exponentially weighted recurrence preserves length. -/
theorem ewmFrom_length (alpha : ℚ) (prev : EF) (xs : List EF) :
    (ewmFrom alpha prev xs).length = xs.length := by
  induction xs generalizing prev with
  | nil => simp [ewmFrom]
  | cons x rest ih => simp [ewmFrom, ih]

/-- The exponentially weighted recurrence over finite values from a finite
seed yields finite values. -/
theorem ewmFrom_isFin (alpha : ℚ) (xs : List EF) (h : ∀ x ∈ xs, x.isFin = true) :
    ∀ prev : EF, prev.isFin = true → ∀ y ∈ ewmFrom alpha prev xs, y.isFin = true := by
  induction xs with
  | nil => intro prev hp y hy; simp [ewmFrom] at hy
  | cons x rest ih =>
      intro prev hp y hy
      simp only [ewmFrom] at hy
      have hf1 : (EF.fin (1 - alpha)).isFin = true := rfl
      have hf2 : (EF.fin alpha).isFin = true := rfl
      rcases List.mem_cons.mp hy with rfl | hy
      · exact EF.add_isFin (EF.mul_isFin hf1 hp)
          (EF.mul_isFin hf2 (h x (List.mem_cons_self _ _)))
      · exact ih (fun z hz => h z (List.mem_cons_of_mem _ hz)) _
          (EF.add_isFin (EF.mul_isFin hf1 hp)
            (EF.mul_isFin hf2 (h x (List.mem_cons_self _ _)))) y hy

/-- A true-range row over finite bar fields is finite (the shifted previous
close may be the leading NaN, which the pandas row maximum skips). -/
theorem trRow_isFin {prevClose : EF} {b : HLC}
    (hh : b.high.isFin = true) (hl : b.low.isFin = true)
    (hp : prevClose.isFin = true ∨ prevClose = .nan) :
    (trRow prevClose b).isFin = true := by
  obtain ⟨q1, h1⟩ := EF.isFin_iff.mp hh
  obtain ⟨q2, h2⟩ := EF.isFin_iff.mp hl
  rcases hp with hp | rfl
  · obtain ⟨q3, h3⟩ := EF.isFin_iff.mp hp
    simp [trRow, h1, h2, h3, EF.sub, EF.add, EF.neg, EF.abs, EF.pmax, EF.isFin]
  · simp [trRow, h1, h2, EF.sub, EF.add, EF.neg, EF.abs, EF.pmax, EF.isFin]

/-- The true-range series has the length of the bar series. -/
theorem trGo_length (prevClose : EF) (bars : List HLC) :
    (trGo prevClose bars).length = bars.length := by
  induction bars generalizing prevClose with
  | nil => simp [trGo]
  | cons b rest ih => simp [trGo, ih]

/-- The true-range series over finite bars is finite. -/
theorem trGo_isFin (bars : List HLC)
    (hb : ∀ b ∈ bars,
      b.high.isFin = true ∧ b.low.isFin = true ∧ b.close.isFin = true) :
    ∀ prevClose : EF, (prevClose.isFin = true ∨ prevClose = .nan) →
      ∀ y ∈ trGo prevClose bars, y.isFin = true := by
  induction bars with
  | nil => intro pc hpc y hy; simp [trGo] at hy
  | cons b rest ih =>
      intro pc hpc y hy
      simp only [trGo] at hy
      rcases List.mem_cons.mp hy with rfl | hy
      · exact trRow_isFin (hb b (List.mem_cons_self _ _)).1
          (hb b (List.mem_cons_self _ _)).2.1 hpc
      · exact ih (fun c hc => hb c (List.mem_cons_of_mem _ hc)) b.close
          (Or.inl (hb b (List.mem_cons_self _ _)).2.2) y hy

/-- The RVOL sanitizer always yields a finite value. -/
theorem sanitizeRvol_isFin (z : EF) : (sanitizeRvol z).isFin = true := by
  cases z <;> rfl

/-- C5: for every positive period/window and finite input series, the four
indicator computations succeed and return series of the same length as the
input containing only finite values (no NaN and no infinities); moreover
`relative_volume`'s sanitizer maps every non-finite ratio — in particular a
ratio from division by a zero rolling mean — to `0.0`. -/
theorem indicator_outputs_finite (p : ℤ) (xs vols : List EF) (bars : List HLC)
    (hlbars : List HL) (hp : 0 < p)
    (hxs : ∀ x ∈ xs, x.isFin = true)
    (hbars : ∀ b ∈ bars,
      b.high.isFin = true ∧ b.low.isFin = true ∧ b.close.isFin = true)
    (hvols : ∀ v ∈ vols, v.isFin = true)
    (hhl : ∀ b ∈ hlbars, b.high.isFin = true ∧ b.low.isFin = true) :
    (∃ out, ema p xs = .ok out ∧ out.length = xs.length ∧
      ∀ y ∈ out, y.isFin = true) ∧
    (∃ out, atr p bars = .ok out ∧ out.length = bars.length ∧
      ∀ y ∈ out, y.isFin = true) ∧
    (∃ out, relative_volume p vols = .ok out ∧ out.length = vols.length ∧
      ∀ y ∈ out, y.isFin = true) ∧
    (∀ v : EF, v.isFin = false → sanitizeRvol v = .fin 0) ∧
    (∀ q : ℚ, sanitizeRvol (EF.div (.fin q) (.fin 0)) = .fin 0) ∧
    (∃ dc, donchian_channels p hlbars = .ok dc ∧
      dc.upper.length = hlbars.length ∧ dc.lower.length = hlbars.length ∧
      dc.middle.length = hlbars.length ∧
      (∀ y ∈ dc.upper, y.isFin = true) ∧ (∀ y ∈ dc.lower, y.isFin = true) ∧
      (∀ y ∈ dc.middle, y.isFin = true)) := by
  have hple : ¬p ≤ 0 := not_le.mpr hp
  have hpn : 0 < p.toNat := by omega
  refine ⟨?_, ?_, ?_, ?_, ?_, ?_⟩
  · -- ema
    unfold ema
    rw [if_neg hple]
    rcases xs with _ | ⟨x, rest⟩
    · exact ⟨[], rfl, rfl, by simp⟩
    · refine ⟨_, rfl, by simp [ewmFrom_length], ?_⟩
      intro y hy
      rcases List.mem_cons.mp hy with rfl | hy
      · exact hxs y (List.mem_cons_self _ _)
      · exact ewmFrom_isFin _ _ (fun z hz => hxs z (List.mem_cons_of_mem _ hz)) _
          (hxs x (List.mem_cons_self _ _)) y hy
  · -- atr
    unfold atr
    rw [if_neg hple]
    refine ⟨_, rfl, by simp [rollingMean, rollingApply_length, trGo_length], ?_⟩
    intro y hy
    exact rollingMean_isFin hpn _ (trGo_isFin bars hbars .nan (Or.inr rfl)) y hy
  · -- relative_volume
    unfold relative_volume
    rw [if_neg hple]
    refine ⟨_, rfl, ?_, ?_⟩
    · simp [List.length_zip, rollingMean, rollingApply_length]
    · intro y hy
      simp only [List.mem_map] at hy
      obtain ⟨z, _, rfl⟩ := hy
      exact sanitizeRvol_isFin _
  · intro v hv
    cases v <;> simp_all [EF.isFin, sanitizeRvol]
  · intro q
    by_cases hq : q = 0
    · simp [hq, EF.div, sanitizeRvol]
    · rcases lt_or_gt_of_ne hq with h | h <;>
        simp [EF.div, sanitizeRvol, hq, h.le, not_lt.mpr h.le, h]
  · -- donchian_channels
    unfold donchian_channels
    rw [if_neg hple]
    refine ⟨_, rfl, ?_, ?_, ?_, ?_, ?_, ?_⟩
    · simp [rollingMax, rollingApply_length]
    · simp [rollingMin, rollingApply_length]
    · simp [List.length_zip, rollingMax, rollingMin, rollingApply_length]
    · exact rollingMax_isFin hpn _ (by
        intro y hy
        simp only [List.mem_map] at hy
        obtain ⟨b, hb, rfl⟩ := hy
        exact (hhl b hb).1)
    · exact rollingMin_isFin hpn _ (by
        intro y hy
        simp only [List.mem_map] at hy
        obtain ⟨b, hb, rfl⟩ := hy
        exact (hhl b hb).2)
    · intro y hy
      simp only [List.mem_map] at hy
      obtain ⟨⟨u, l⟩, hz, rfl⟩ := hy
      obtain ⟨hu, hl2⟩ := List.mem_zip hz
      exact EF.div_isFin
        (EF.add_isFin
          (rollingMax_isFin hpn _ (by
            intro y hy
            simp only [List.mem_map] at hy
            obtain ⟨b, hb, rfl⟩ := hy
            exact (hhl b hb).1) u hu)
          (rollingMin_isFin hpn _ (by
            intro y hy
            simp only [List.mem_map] at hy
            obtain ⟨b, hb, rfl⟩ := hy
            exact (hhl b hb).2) l hl2))
        (by norm_num)

/-- C5 (witness): the indicator totality statement at period 2 with concrete
two-element finite inputs (the volume series contains a zero, exercising the
division-by-zero sanitation). -/
theorem indicator_outputs_finite_witness :
    (0 : ℤ) < 2 ∧ (∀ x ∈ [EF.fin 1, EF.fin 2], x.isFin = true) ∧
    ((∃ out, ema 2 [EF.fin 1, EF.fin 2] = .ok out ∧ out.length = 2 ∧
      ∀ y ∈ out, y.isFin = true) ∧
    (∃ out, atr 2 [⟨.fin 3, .fin 1, .fin 2⟩] = .ok out ∧ out.length = 1 ∧
      ∀ y ∈ out, y.isFin = true) ∧
    (∃ out, relative_volume 2 [EF.fin 0, EF.fin 0] = .ok out ∧ out.length = 2 ∧
      ∀ y ∈ out, y.isFin = true) ∧
    (∀ v : EF, v.isFin = false → sanitizeRvol v = .fin 0) ∧
    (∀ q : ℚ, sanitizeRvol (EF.div (.fin q) (.fin 0)) = .fin 0) ∧
    (∃ dc, donchian_channels 2 [(⟨.fin 3, .fin 1⟩ : HL)] = .ok dc ∧
      dc.upper.length = 1 ∧ dc.lower.length = 1 ∧ dc.middle.length = 1 ∧
      (∀ y ∈ dc.upper, y.isFin = true) ∧ (∀ y ∈ dc.lower, y.isFin = true) ∧
      (∀ y ∈ dc.middle, y.isFin = true))) :=
  ⟨by decide, by decide,
    indicator_outputs_finite 2 [EF.fin 1, EF.fin 2] [EF.fin 0, EF.fin 0]
      [⟨.fin 3, .fin 1, .fin 2⟩] [⟨.fin 3, .fin 1⟩] (by decide) (by decide) (by decide)
      (by decide) (by decide)⟩

/-- The confidence clamp always lands in `[0, 1]`. -/
theorem clamp01_bounds (x : ℚ) : 0 ≤ clamp01 x ∧ clamp01 x ≤ 1 :=
  ⟨le_max_left 0 _, max_le (by norm_num) (min_le_right x 1)⟩

/-- C4 (counterexample): an advisor that returns the non-JSON text "hello"
does not trigger the deterministic fallback in `GovernanceAgent.decide`: at
balance 8000 the fallback decision chooses "swing", while `decide` builds an
advisor-path default decision ("intraday", reason "LLM decision"). -/
theorem governance_nonjson_not_fallback :
    governance_decide (.returns (.notJson "hello")) { account_balance := some 8000 } none ≠
      .ok (fallback_decision { account_balance := some 8000 } none) := by
  decide

/-- C4 (amended): an advisor exception always yields the deterministic
fallback result in both `GovernanceAgent.decide` and
`SignalAgent.generate_signal`, and so do empty output for the governance
agent and non-JSON text for the signal agent; but the governance agent maps
non-JSON text to an empty parsed object and returns an advisor-path default
decision (reason "LLM decision") instead of the fallback, and the signal
agent parses empty output as an empty decision object, returning a default
SKIP signal (reason "Intraday decision", confidence 0.5) instead of the
fallback. -/
theorem advisor_failure_handling (state : AccountState) (preferred : Option String)
    (th : AgentThresholds) (rm : Option RiskParameters) (sym : String) (tf : Timeframe)
    (features : Features) (regime : Option String) (s : String) :
    governance_decide .raises state preferred = .ok (fallback_decision state preferred) ∧
    governance_decide (.returns .empty) state preferred =
      .ok (fallback_decision state preferred) ∧
    governance_decide (.returns (.notJson s)) state preferred =
      .ok { scenario := pyLower (pyOrS preferred "intraday"), reason := "LLM decision",
            adjustments := [], recommended_timeframe := none } ∧
    intraday_generate_signal th rm .raises sym tf features regime =
      intraday_fallback_signal th rm sym tf features regime ∧
    intraday_generate_signal th rm (.returns (.notJson s)) sym tf features regime =
      intraday_fallback_signal th rm sym tf features regime ∧
    ((1 ≤ sym.length ∧ sym.length ≤ 20) →
      ∃ s6, intraday_generate_signal th rm (.returns .empty) sym tf features regime =
          .ok s6 ∧
        s6.action = .SKIP ∧ s6.reason = "Intraday decision" ∧
        s6.confidence = 1 / 2 ∧ s6.entry_price = none) := by
  refine ⟨rfl, rfl, rfl, rfl, rfl, ?_⟩
  intro hsym
  simp only [intraday_generate_signal, intraday_parse_decision, mkSignal]
  split
  · next s6 heq =>
      split at heq
      · injection heq with h
        subst h
        exact ⟨_, rfl, rfl, rfl, rfl, rfl⟩
      · exact (Except.noConfusion heq)
  · next e heq =>
      split at heq
      · exact (Except.noConfusion heq)
      · next hcond =>
          exact absurd
            ⟨hsym.1, hsym.2, (clamp01_bounds _).1, (clamp01_bounds _).2,
              by simp [pyOrQ], by simp [pyOrQ], by simp [pyOrQ], by simp [pyOrQ], by simp,
              (by decide :
                10 ≤ (ensure_reason ((({} : JsonObj).attachments.getD {}).reason.getD
                  (pyOrS ({} : JsonObj).reason "Intraday decision"))).length)⟩ hcond

/-- C4 (witness): the amended claim at a concrete input — non-JSON text at
an empty account state yields the advisor-path default decision, and empty
advisor output for the intraday agent yields the parse-path default SKIP
signal. -/
theorem advisor_failure_handling_witness :
    governance_decide (.returns (.notJson "oops")) {} none =
      .ok { scenario := "intraday", reason := "LLM decision", adjustments := [],
            recommended_timeframe := none } ∧
    ∃ s6, intraday_generate_signal {} none (.returns .empty) "XAUUSD" .M15
        Features.empty none = .ok s6 ∧
      s6.action = .SKIP ∧ s6.reason = "Intraday decision" ∧
      s6.confidence = 1 / 2 ∧ s6.entry_price = none := by
  have h := advisor_failure_handling {} none {} none "XAUUSD" .M15 Features.empty none "oops"
  exact ⟨h.2.2.1.trans (by decide), h.2.2.2.2.2 ⟨by decide, by decide⟩⟩

/-- The intraday deterministic fallback on an empty feature mapping: the
entry conditions cannot hold, so the result is the SKIP signal (for any
thresholds and any risk manager). -/
theorem intraday_fallback_on_empty_features (th : AgentThresholds)
    (rm : Option RiskParameters) (sym : String) (tf : Timeframe) (regime : Option String)
    (hs1 : 1 ≤ sym.length) (hs2 : sym.length ≤ 20) :
    intraday_fallback_signal th rm sym tf Features.empty regime =
      .ok { symbol := sym
            timeframe := tf
            action := .SKIP
            side := none
            confidence := clamp01 (7 / 20)
            entry_price := none
            reason := ensure_reason "Недостаточно условий для открытия позиции"
            indicators := Features.empty
            market_regime := parseRegime regime
            tags := ["skip"] } := by
  simp only [intraday_fallback_signal, Features.empty, mkSignal]
  split
  · rfl
  · next hcond =>
      exact absurd
        ⟨hs1, hs2, (clamp01_bounds _).1, (clamp01_bounds _).2,
          by simp [Features.empty], by simp, by simp, by simp, by simp,
          (by decide :
            10 ≤ (ensure_reason "Недостаточно условий для открытия позиции").length)⟩ hcond

/-- C3: a cycle over an empty bar series completes without raising for every
account state, timeframe input and quote: it visits IDLE, SETUP, ENTER and
SUMMARY only (MANAGE and EXIT are skipped), the result's features equal the
empty mapping, and the generated signal has action SKIP.  (The symbol must
be of valid length for the signal model to construct.) -/
theorem empty_bar_series_cycle (sym : String) (tfIn : Option String)
    (acct : AccountState) (quote : Option Quote)
    (hsym : 1 ≤ sym.length ∧ sym.length ≤ 20) :
    ∃ r, run_intraday_cycle sym tfIn [] acct quote = .ok r ∧
      r.path = [.IDLE, .SETUP, .ENTER, .SUMMARY] ∧
      r.features = Features.empty ∧
      ∃ s, r.signal = some s ∧ s.action = .SKIP := by
  have hfall : ∀ th rm tf regime,
      intraday_fallback_signal th rm sym tf Features.empty regime =
        .ok { symbol := sym
              timeframe := tf
              action := .SKIP
              side := none
              confidence := clamp01 (7 / 20)
              entry_price := none
              reason := ensure_reason "Недостаточно условий для открытия позиции"
              indicators := Features.empty
              market_regime := parseRegime regime
              tags := ["skip"] } :=
    fun th rm tf regime =>
      intraday_fallback_on_empty_features th rm sym tf regime hsym.1 hsym.2
  simp only [run_intraday_cycle, except_ok_bind, Option.getD_none,
    intraday_generate_signal, hfall]
  exact ⟨_, rfl, rfl, rfl, _, rfl, rfl⟩

/-- C3 (witness): the empty-series cycle at a concrete symbol and empty
account state. -/
theorem empty_bar_series_cycle_witness :
    ∃ r, run_intraday_cycle "XAUUSD" none [] {} none = .ok r ∧
      r.path = [.IDLE, .SETUP, .ENTER, .SUMMARY] ∧
      r.features = Features.empty ∧
      ∃ s, r.signal = some s ∧ s.action = .SKIP :=
  empty_bar_series_cycle "XAUUSD" none {} none (by decide)

/-- The floor used by the rounding model agrees with the mathematical floor. -/
theorem rat_floor_eq_intFloor (q : ℚ) : q.floor = ⌊q⌋ := rfl

/-- Banker's rounding stays within one unit of the floor. -/
theorem roundHalfEven_bounds (q : ℚ) :
    q.floor ≤ roundHalfEven q ∧ roundHalfEven q ≤ q.floor + 1 := by
  unfold roundHalfEven
  split_ifs <;> omega

/-- Banker's rounding is monotone. -/
theorem roundHalfEven_mono {x y : ℚ} (h : x ≤ y) :
    roundHalfEven x ≤ roundHalfEven y := by
  have hfm : x.floor ≤ y.floor := by
    rw [rat_floor_eq_intFloor, rat_floor_eq_intFloor]
    exact Int.floor_mono h
  rcases lt_or_eq_of_le hfm with hlt | heq
  · have h1 := (roundHalfEven_bounds x).2
    have h2 := (roundHalfEven_bounds y).1
    omega
  · have hx1 : ((x.floor : ℚ)) ≤ x := by
      rw [rat_floor_eq_intFloor]; exact_mod_cast Int.floor_le x
    unfold roundHalfEven
    rw [← heq]
    split_ifs <;> first | omega | linarith

/-- Rounding to a fixed number of decimals is monotone. -/
theorem roundTo_mono (d : ℕ) {x y : ℚ} (h : x ≤ y) : roundTo d x ≤ roundTo d y := by
  unfold roundTo
  have hm : roundHalfEven (x * 10 ^ d) ≤ roundHalfEven (y * 10 ^ d) :=
    roundHalfEven_mono (mul_le_mul_of_nonneg_right h (by positivity))
  have hpow : (0 : ℚ) < 10 ^ d := by positivity
  exact (div_le_div_right hpow).mpr (by exact_mod_cast hm)

/-- C9: holding the risk parameters fixed (positive balance, risk fraction
in `(0, 1]`, positive contract size), the position-sizing quantity is
monotonically non-increasing in the stop distance: a stop at least as far
from the entry yields a quantity at most as large. -/
theorem position_size_antitone_in_stop_distance (p : RiskParameters) (side : OrderSide)
    (entry_price stop1 stop2 : ℚ) (hbal : 0 < p.account_balance)
    (hr1 : 0 < p.risk_per_trade) (hr2 : p.risk_per_trade ≤ 1) (hcs : 0 < p.contract_size)
    (h1 : stop1 ≠ entry_price) (h2 : stop2 ≠ entry_price)
    (hd : |entry_price - stop1| ≤ |entry_price - stop2|) :
    ∃ r1 r2, position_size p side entry_price stop1 = .ok r1 ∧
      position_size p side entry_price stop2 = .ok r2 ∧
      r2.quantity ≤ r1.quantity := by
  have hra : p.riskAmount = .ok (p.account_balance * p.risk_per_trade) := by
    unfold RiskParameters.riskAmount
    rw [if_neg (not_le.mpr hbal), if_neg (not_not_intro ⟨hr1, hr2⟩)]
  have hd1 : 0 < |entry_price - stop1| := abs_pos.mpr (sub_ne_zero.mpr (Ne.symm h1))
  have hd2 : 0 < |entry_price - stop2| := abs_pos.mpr (sub_ne_zero.mpr (Ne.symm h2))
  have hpu1 : 0 < |entry_price - stop1| * p.contract_size := by positivity
  have hpu2 : 0 < |entry_price - stop2| * p.contract_size := by positivity
  have hq : p.account_balance * p.risk_per_trade / (|entry_price - stop2| * p.contract_size)
      ≤ p.account_balance * p.risk_per_trade / (|entry_price - stop1| * p.contract_size) :=
    div_le_div_of_nonneg_left (by positivity) hpu1
      (mul_le_mul_of_nonneg_right hd hcs.le)
  simp only [position_size]
  simp only [hra, except_ok_bind]
  rw [if_neg (not_le.mpr hd1), if_neg (ne_of_gt hpu1)]
  rw [if_neg (not_le.mpr hd2), if_neg (ne_of_gt hpu2)]
  rcases hm : p.max_position with _ | m <;> simp only [hm]
  · exact ⟨_, _, rfl, rfl, roundTo_mono 6 (max_le_max hq le_rfl)⟩
  · exact ⟨_, _, rfl, rfl, roundTo_mono 6 (min_le_min (max_le_max hq le_rfl) le_rfl)⟩

/-- C9 (witness): with balance 10000 and default parameters, for a BUY at
entry 2, widening the stop from 1.5 (distance 0.5) to 1 (distance 1) does
not increase the quantity. -/
theorem position_size_antitone_in_stop_distance_witness :
    (0 : ℚ) < 10000 ∧ |(2 : ℚ) - 3 / 2| ≤ |(2 : ℚ) - 1| ∧
    ∃ r1 r2, position_size { account_balance := 10000 } .BUY 2 (3 / 2) = .ok r1 ∧
      position_size { account_balance := 10000 } .BUY 2 1 = .ok r2 ∧
      r2.quantity ≤ r1.quantity :=
  ⟨by norm_num,
    by
      rw [abs_of_nonneg (by norm_num : (0 : ℚ) ≤ 2 - 3 / 2),
        abs_of_nonneg (by norm_num : (0 : ℚ) ≤ 2 - 1)]
      norm_num,
    position_size_antitone_in_stop_distance { account_balance := 10000 } .BUY 2 (3 / 2) 1
      (by norm_num) (by norm_num) (by norm_num) (by norm_num) (by norm_num) (by norm_num)
      (by
        rw [abs_of_nonneg (by norm_num : (0 : ℚ) ≤ 2 - 3 / 2),
          abs_of_nonneg (by norm_num : (0 : ℚ) ≤ 2 - 1)]
        norm_num)⟩

/-- C10 (counterexample): with `max_position` set to `1e-7`, below the
default `min_position` of `0.01`, the returned quantity is the cap rounded
to six decimals — `0` — and not `max_position` itself. -/
theorem position_size_cap_rounding_counterexample :
    Except.map (fun r => r.quantity)
        (position_size { account_balance := 10000, max_position := some (1 / 10000000) }
          .BUY 2 1) =
      .ok 0 ∧
    (0 : ℚ) ≠ 1 / 10000000 := by
  refine ⟨by decide, by norm_num⟩

/-- C10 (amended): the `min_position` floor is applied before the
`max_position` cap, so whenever `max_position` is set strictly below
`min_position` (and the sizing inputs are valid) the computation succeeds —
the assumption `max_position ≥ min_position` is never checked — and the
returned quantity equals `max_position` rounded to six decimal places
(which is `max_position` itself whenever it is representable at six
decimals): the cap wins. -/
theorem position_size_cap_wins_below_floor (p : RiskParameters) (side : OrderSide)
    (entry_price stop_loss m : ℚ) (hbal : 0 < p.account_balance)
    (hr1 : 0 < p.risk_per_trade) (hr2 : p.risk_per_trade ≤ 1)
    (hcs : 0 < p.contract_size) (hne : stop_loss ≠ entry_price)
    (hm : p.max_position = some m) (hlt : m < p.min_position) :
    ∃ r, position_size p side entry_price stop_loss = .ok r ∧
      r.quantity = roundTo 6 m := by
  have hra : p.riskAmount = .ok (p.account_balance * p.risk_per_trade) := by
    unfold RiskParameters.riskAmount
    rw [if_neg (not_le.mpr hbal), if_neg (not_not_intro ⟨hr1, hr2⟩)]
  have hdist : 0 < |entry_price - stop_loss| :=
    abs_pos.mpr (sub_ne_zero.mpr (Ne.symm hne))
  have hpu : 0 < |entry_price - stop_loss| * p.contract_size := by positivity
  simp only [position_size]
  rw [hra]
  simp only [except_ok_bind]
  rw [if_neg (not_le.mpr hdist), if_neg (ne_of_gt hpu)]
  simp only [hm]
  refine ⟨_, rfl, ?_⟩
  have hmin : min (max (p.account_balance * p.risk_per_trade /
      (|entry_price - stop_loss| * p.contract_size)) p.min_position) m = m :=
    min_eq_right (le_of_lt (lt_of_lt_of_le hlt (le_max_right _ _)))
  rw [hmin]

/-- C10 (witness): the amended claim at balance 10000, entry 2, stop 1,
`max_position = 1e-7` below the floor: the sizing succeeds and returns the
rounded cap. -/
theorem position_size_cap_wins_below_floor_witness :
    ∃ r, position_size { account_balance := 10000, max_position := some (1 / 10000000) }
        .BUY 2 1 = .ok r ∧
      r.quantity = roundTo 6 (1 / 10000000) :=
  position_size_cap_wins_below_floor
    { account_balance := 10000, max_position := some (1 / 10000000) } .BUY 2 1
    (1 / 10000000) (by norm_num) (by norm_num) (by norm_num) (by norm_num)
    (by norm_num) rfl (by norm_num)

end Atl
